import Mathlib

/-!
# Verification of the GPX library's geo-interchange mapper, statistics and helpers

A shallow embedding of the `gpx` Python package (modules `waypoint.py`,
`route.py`, `track.py`, `track_segment.py`, `gpx.py`, `utils.py`,
`errors.py`) into Lean 4.

Python `Decimal` values are modelled by `EDec` (rationals extended with the
two infinities, which Python's `Decimal` supports and which `gpx.py` relies
on for its bounding-box fold); Python `dict`s built by the mapper are
modelled by association lists in insertion order; Python exceptions are
modelled by the `Err` type together with `Except`-valued functions.

Modules of the repository that the claims reference but whose sources are
not available (`types.py`, `link.py`, `metadata.py`, `mixins.py`) are
modelled from the specification; each such definition carries a doc comment
starting with `Modelled from the spec:`.
-/

set_option autoImplicit false

namespace GpxV

/-- The error kinds raised by the mapper.  `invalidGeoJSON` and
`unsupportedType` model the library's own `InvalidGeoJSONError` and
`UnsupportedGeoJSONTypeError` (`errors.py`); the remaining constructors
model the built-in Python exceptions that duck-typed dictionary access can
raise (`KeyError`, `TypeError`, `AttributeError`, `ValueError`). -/
inductive Err where
  | invalidGeoJSON
  | unsupportedType
  | valueError
  | typeError
  | keyError
  | attributeError
  deriving DecidableEq, Repr

/-- Python `Decimal` values: finite rationals plus the two infinities
(`Decimal("Infinity")` / `Decimal("-Infinity")` are used by
`GPX._geojson_bounds`). -/
inductive EDec where
  | negInf
  | fin (q : ℚ)
  | posInf
  deriving DecidableEq, Repr

namespace EDec

/-- `min` on `Decimal`, with the infinities ordered below/above all finite
values. -/
def emin : EDec → EDec → EDec
  | negInf, _ => negInf
  | _, negInf => negInf
  | posInf, b => b
  | a, posInf => a
  | fin a, fin b => fin (min a b)

/-- `max` on `Decimal`. -/
def emax : EDec → EDec → EDec
  | posInf, _ => posInf
  | _, posInf => posInf
  | negInf, b => b
  | a, negInf => a
  | fin a, fin b => fin (max a b)

end EDec

/-- A naive model of Python `datetime` values: calendar fields plus an
optional UTC offset in minutes (`none` models a naive datetime without
`tzinfo`). -/
structure DTime where
  year : ℕ
  month : ℕ
  day : ℕ
  hour : ℕ
  minute : ℕ
  second : ℕ
  microsecond : ℕ
  tz : Option ℤ
  deriving DecidableEq, Repr

/-- GPS fix kinds. Modelled from the spec: the "fix-quality enum" scalar
wrapper of the missing `types.py`; the GPX standard's values are
`none`, `2d`, `3d`, `dgps` and `pps`, stored as their string spellings
(`waypoint.py` writes `self.fix` directly as element text). -/
inductive Fix where
  | fixNone
  | fix2d
  | fix3d
  | fixDgps
  | fixPps
  deriving DecidableEq, Repr

/-- The string spelling of a fix kind. -/
def Fix.toStr : Fix → String
  | .fixNone => "none"
  | .fix2d => "2d"
  | .fix3d => "3d"
  | .fixDgps => "dgps"
  | .fixPps => "pps"

/-- Constructing a `Fix` from a string, as `Fix(text)` does in
`waypoint.py`; an unknown spelling raises `ValueError`. -/
def Fix.ofStr (s : String) : Except Err Fix :=
  if s = "none" then .ok .fixNone
  else if s = "2d" then .ok .fix2d
  else if s = "3d" then .ok .fix3d
  else if s = "dgps" then .ok .fixDgps
  else if s = "pps" then .ok .fixPps
  else .error .valueError

/-- Modelled from the spec: the `Latitude` scalar wrapper of the missing
`types.py`, "latitude ∈ [-90,90]", range-enforced at construction. -/
def Latitude := { q : ℚ // -90 ≤ q ∧ q ≤ 90 }

instance : DecidableEq Latitude := Subtype.instDecidableEq

/-- The validating `Latitude` constructor: out-of-range values raise. -/
def Latitude.make (q : ℚ) : Except Err Latitude :=
  if h : -90 ≤ q ∧ q ≤ 90 then .ok ⟨q, h⟩ else .error .valueError

/-- Modelled from the spec: the `Longitude` scalar wrapper of the missing
`types.py`, "longitude ∈ [-180,180]", range-enforced at construction. -/
def Longitude := { q : ℚ // -180 ≤ q ∧ q ≤ 180 }

instance : DecidableEq Longitude := Subtype.instDecidableEq

/-- The validating `Longitude` constructor: out-of-range values raise. -/
def Longitude.make (q : ℚ) : Except Err Longitude :=
  if h : -180 ≤ q ∧ q ≤ 180 then .ok ⟨q, h⟩ else .error .valueError

/-- Modelled from the spec: the `Link` entity of the missing `link.py` —
"href (required), optional text, optional MIME type". -/
structure Link where
  href : String
  text : Option String
  mime : Option String
  deriving DecidableEq, Repr

/-- The in-memory GeoJSON value graph built by `to_geojson`: Python
strings, ints, `Decimal`s, raw `datetime` objects (the property dicts hold
them unconverted), `None`, lists and (insertion-ordered) dicts. -/
inductive GVal where
  | str (s : String)
  | int (n : ℤ)
  | dec (d : EDec)
  | time (t : DTime)
  | null
  | list (xs : List GVal)
  | obj (kvs : List (String × GVal))

/-- Python dict lookup (`d.get(k)` / `d[k]`) on the association-list
model: the first entry with the given key. -/
def dLookup : List (String × GVal) → String → Option GVal
  | [], _ => none
  | (k, v) :: rest, key => if k = key then some v else dLookup rest key

/-- Python `d[k]` on an arbitrary value: `TypeError` when the value is not
a dict, `KeyError` when the key is missing. -/
def dIndex (g : GVal) (key : String) : Except Err GVal :=
  match g with
  | .obj kvs =>
    match dLookup kvs key with
    | some v => .ok v
    | none => .error .keyError
  | _ => .error .typeError

/-- Whether a value is `None` (used by the `None`-filtering step of
`filter_geojson_properties`). -/
def GVal.isNull : GVal → Bool
  | .null => true
  | _ => false

/-- Python truthiness of a GeoJSON value (used by `any(...)`): empty
strings, zero, `None`, empty lists and empty dicts are falsy. -/
def GVal.truthy : GVal → Bool
  | .str s => !s.isEmpty
  | .int n => n ≠ 0
  | .dec d => d ≠ .fin 0
  | .time _ => true
  | .null => false
  | .list xs => !xs.isEmpty
  | .obj kvs => !kvs.isEmpty

/-- Python `d.pop(k)` restricted to the removal effect: drops the first
entry with the given key. -/
def dPop : List (String × GVal) → String → List (String × GVal)
  | [], _ => []
  | (k, v) :: rest, key => if k = key then rest else (k, v) :: dPop rest key

/-! ## `utils.format_datetime`

The timestamp text encoder of `utils.py`:

    dt.isoformat(timespec="milliseconds" if dt.microsecond else "seconds").replace("+00:00", "Z")

Strings are modelled as `List Char`.
-/

/-- The decimal digit character of `n % 10`. -/
def digitChar (n : ℕ) : Char :=
  match n % 10 with
  | 0 => '0' | 1 => '1' | 2 => '2' | 3 => '3' | 4 => '4'
  | 5 => '5' | 6 => '6' | 7 => '7' | 8 => '8' | _ => '9'

/-- Two-digit zero-padded decimal rendering (`%02d` for values < 100). -/
def pad2 (n : ℕ) : List Char := [digitChar (n / 10), digitChar n]

/-- Three-digit zero-padded decimal rendering (`%03d` for values < 1000). -/
def pad3 (n : ℕ) : List Char := [digitChar (n / 100), digitChar (n / 10), digitChar n]

/-- Four-digit zero-padded decimal rendering (`%04d` for values < 10000,
as `datetime.isoformat` prints the year). -/
def pad4 (n : ℕ) : List Char :=
  [digitChar (n / 1000), digitChar (n / 100), digitChar (n / 10), digitChar n]

/-- The date-and-time body of `datetime.isoformat`, including the
fractional part exactly under `format_datetime`'s `timespec` choice:
milliseconds when the sub-second field is non-zero, whole seconds
otherwise. -/
def isobody (dt : DTime) : List Char :=
  pad4 dt.year ++ '-' :: pad2 dt.month ++ '-' :: pad2 dt.day ++
    'T' :: pad2 dt.hour ++ ':' :: pad2 dt.minute ++ ':' :: pad2 dt.second ++
    (if dt.microsecond = 0 then [] else '.' :: pad3 (dt.microsecond / 1000))

/-- The UTC-offset suffix of `datetime.isoformat`: empty for a naive
datetime, `±HH:MM` otherwise. -/
def offsetChars : Option ℤ → List Char
  | none => []
  | some off =>
    (if off < 0 then '-' else '+') :: pad2 (off.natAbs / 60) ++ ':' :: pad2 (off.natAbs % 60)

/-- `datetime.isoformat` with `format_datetime`'s `timespec` argument. -/
def isoformat (dt : DTime) : List Char := isobody dt ++ offsetChars dt.tz

/-- Python `str.replace("+00:00", "Z")`: replaces every (leftmost-first)
occurrence of `+00:00` by `Z`. -/
def replTZ : List Char → List Char
  | [] => []
  | '+' :: '0' :: '0' :: ':' :: '0' :: '0' :: rest => 'Z' :: replTZ rest
  | c :: rest => c :: replTZ rest

/-- `utils.format_datetime`. -/
def format_datetime (dt : DTime) : List Char := replTZ (isoformat dt)

/-! ## `Waypoint` (`waypoint.py`) -/

/-- The `Waypoint` entity: required latitude and longitude plus the
optional fields of `Waypoint.__init__`. -/
structure Waypoint where
  lat : Latitude
  lon : Longitude
  ele : Option ℚ
  time : Option DTime
  magvar : Option ℚ
  geoidheight : Option ℚ
  name : Option String
  cmt : Option String
  desc : Option String
  src : Option String
  links : List Link
  sym : Option String
  type : Option String
  fix : Option Fix
  sat : Option ℤ
  hdop : Option ℚ
  vdop : Option ℚ
  pdop : Option ℚ
  ageofdgpsdata : Option ℚ
  dgpsid : Option ℕ
  deriving DecidableEq

/-- A waypoint with the given position and every optional field at its
`Waypoint.__init__` default. -/
def Waypoint.mkPos (lat : Latitude) (lon : Longitude) (ele : Option ℚ) : Waypoint :=
  ⟨lat, lon, ele, none, none, none, none, none, none, none, [], none, none,
    none, none, none, none, none, none, none⟩

/-- `Waypoint._geojson_coordinates`: `[lon, lat]`, with the elevation
appended exactly when it is set. -/
def Waypoint.geojson_coordinates (w : Waypoint) : List GVal :=
  match w.ele with
  | some e => [.dec (.fin w.lon.val), .dec (.fin w.lat.val), .dec (.fin e)]
  | none => [.dec (.fin w.lon.val), .dec (.fin w.lat.val)]

/-- Modelled from the spec: `Link.to_dict` of the missing `link.py` — a
link serialises to a mapping carrying its fields, absent ones omitted. -/
def Link.to_dict (l : Link) : GVal :=
  .obj (("href", .str l.href) ::
    (match l.text with | some t => [("text", GVal.str t)] | none => []) ++
    (match l.mime with | some m => [("type", GVal.str m)] | none => []))

/-- Modelled from the spec: `Link.from_dict` of the missing `link.py` —
the inverse of `Link.to_dict`; `href` is required. -/
def Link.from_dict (g : GVal) : Except Err Link :=
  match g with
  | .obj kvs => do
    let href ← match dLookup kvs "href" with
      | some (.str h) => .ok h
      | some _ => .error .typeError
      | none => .error .keyError
    let text ← match dLookup kvs "text" with
      | some (.str t) => .ok (some t)
      | some .null | none => .ok none
      | some _ => .error .typeError
    let mime ← match dLookup kvs "type" with
      | some (.str m) => .ok (some m)
      | some .null | none => .ok none
      | some _ => .error .typeError
    .ok ⟨href, text, mime⟩
  | _ => .error .typeError

/-- Encoding of an optional `Decimal` field as a property value (`None`
for an absent field, before filtering). -/
def encD : Option ℚ → GVal
  | none => .null
  | some q => .dec (.fin q)

/-- Encoding of an optional string field. -/
def encS : Option String → GVal
  | none => .null
  | some s => .str s

/-- Encoding of an optional int field. -/
def encI : Option ℤ → GVal
  | none => .null
  | some n => .int n

/-- Encoding of an optional `datetime` field (stored as the raw object). -/
def encT : Option DTime → GVal
  | none => .null
  | some t => .time t

/-- Encoding of an optional `Fix` field (a `str` subclass in the source). -/
def encF : Option Fix → GVal
  | none => .null
  | some f => .str f.toStr

/-- Encoding of an optional DGPS-station field (an int-like scalar). -/
def encN : Option ℕ → GVal
  | none => .null
  | some n => .int n

/-- `utils.filter_geojson_properties`: drop entries whose value is `None`,
then drop the `links` entry when its list has no truthy member (in
particular when it is empty).  All call sites build the dict with a
`links` entry present and list-valued, so the lookup cannot fail there. -/
def filter_geojson_properties (kvs : List (String × GVal)) : List (String × GVal) :=
  let kvs := kvs.filter fun kv => !kv.2.isNull
  match dLookup kvs "links" with
  | some (.list ls) => if ls.any GVal.truthy then kvs else dPop kvs "links"
  | _ => kvs

/-- `Waypoint._geojson_properties`: the 17-field property dict, filtered. -/
def Waypoint.geojson_properties (w : Waypoint) : List (String × GVal) :=
  filter_geojson_properties
    [("time", encT w.time),
     ("magvar", encD w.magvar),
     ("geoidheight", encD w.geoidheight),
     ("name", encS w.name),
     ("cmt", encS w.cmt),
     ("desc", encS w.desc),
     ("src", encS w.src),
     ("links", .list (w.links.map Link.to_dict)),
     ("sym", encS w.sym),
     ("type", encS w.type),
     ("fix", encF w.fix),
     ("sat", encI w.sat),
     ("hdop", encD w.hdop),
     ("vdop", encD w.vdop),
     ("pdop", encD w.pdop),
     ("ageofdgpsdata", encD w.ageofdgpsdata),
     ("dgpsid", encN w.dgpsid)]

/-- A decimal digit's value, `none` for a non-digit. -/
def charDigit (c : Char) : Option ℕ :=
  if '0' ≤ c ∧ c ≤ '9' then some (c.toNat - 48) else none

/-- The value of a digit string. -/
def digitsVal (cs : List Char) : Option ℕ :=
  cs.foldlM (fun acc c => (charDigit c).map fun d => acc * 10 + d) 0

/-- Modelled from the spec: the trailing UTC-offset of an ISO-8601 string
as `dateutil.isoparse` reads it (`Z`, empty, or `±HH:MM`). -/
def parseTZ : List Char → Except Err (Option ℤ)
  | [] => .ok none
  | ['Z'] => .ok (some 0)
  | '+' :: h1 :: h2 :: ':' :: m1 :: m2 :: [] =>
    match digitsVal [h1, h2], digitsVal [m1, m2] with
    | some h, some m => .ok (some (h * 60 + m : ℕ))
    | _, _ => .error .valueError
  | '-' :: h1 :: h2 :: ':' :: m1 :: m2 :: [] =>
    match digitsVal [h1, h2], digitsVal [m1, m2] with
    | some h, some m => .ok (some (-(h * 60 + m : ℕ)))
    | _, _ => .error .valueError
  | _ => .error .valueError

/-- Modelled from the spec: the external ISO-8601 timestamp parser
(`dateutil.isoparse`, not part of this repository) on the canonical
shapes the library emits: `YYYY-MM-DDTHH:MM:SS[.frac][Z|±HH:MM]`.  A
fractional part of `k ≤ 6` digits denotes `value·10^(6−k)` microseconds. -/
def isoparseChars (cs : List Char) : Except Err DTime :=
  match cs with
  | y1 :: y2 :: y3 :: y4 :: '-' :: o1 :: o2 :: '-' :: d1 :: d2 ::
      'T' :: h1 :: h2 :: ':' :: i1 :: i2 :: ':' :: s1 :: s2 :: rest =>
    match digitsVal [y1, y2, y3, y4], digitsVal [o1, o2], digitsVal [d1, d2],
        digitsVal [h1, h2], digitsVal [i1, i2], digitsVal [s1, s2] with
    | some y, some o, some d, some h, some i, some s =>
      match rest with
      | '.' :: rest => do
        let frac := rest.takeWhile fun c => (charDigit c).isSome
        let tzPart := rest.dropWhile fun c => (charDigit c).isSome
        match digitsVal frac with
        | some f =>
          if frac.length ≤ 6 then do
            let tz ← parseTZ tzPart
            .ok ⟨y, o, d, h, i, s, f * 10 ^ (6 - frac.length), tz⟩
          else .error .valueError
        | none => .error .valueError
      | _ => do
        let tz ← parseTZ rest
        .ok ⟨y, o, d, h, i, s, 0, tz⟩
    | _, _, _, _, _, _ => .error .valueError
  | _ => .error .valueError

/-- `isoparse` applied to a property value: only strings are parseable,
anything else (in particular a raw `datetime` object) raises. -/
def isoparse (g : GVal) : Except Err DTime :=
  match g with
  | .str s => isoparseChars s.toList
  | _ => .error .typeError

/-- Conversion of a property value to a finite decimal, as the `Decimal`
and `Degrees` constructors consume values (`Decimal(x)`); infinite inputs
fail the range-constrained constructors and non-numeric objects raise. -/
def asQ (g : GVal) : Except Err ℚ :=
  match g with
  | .dec (.fin q) => .ok q
  | .dec _ => .error .valueError
  | .int n => .ok (n : ℚ)
  | _ => .error .typeError

/-- Conversion of a property value by Python `int(...)` for the values
the mapper produces. -/
def asInt (g : GVal) : Except Err ℤ :=
  match g with
  | .int n => .ok n
  | _ => .error .typeError

/-- Conversion by the `DGPSStation` constructor (a non-negative station
id). -/
def asStation (g : GVal) : Except Err ℕ :=
  match g with
  | .int n => if n < 0 then .error .valueError else .ok n.toNat
  | _ => .error .typeError

/-- Conversion of a string-valued property (`name`, `cmt`, ... are
assigned verbatim; the mapper only ever stores strings there). -/
def asStr (g : GVal) : Except Err String :=
  match g with
  | .str s => .ok s
  | _ => .error .typeError

/-- `Waypoint._geojson_from_coordinates`: build a waypoint from a 2- or
3-element coordinate array (star-unpacking any other arity raises);
longitude and latitude run through their validating constructors. -/
def Waypoint.geojson_from_coordinates (coords : List GVal) : Except Err Waypoint :=
  match coords with
  | [lonv, latv] => do
    let lonq ← asQ lonv
    let latq ← asQ latv
    let lon ← Longitude.make lonq
    let lat ← Latitude.make latq
    .ok (Waypoint.mkPos lat lon none)
  | [lonv, latv, elev] => do
    let lonq ← asQ lonv
    let latq ← asQ latv
    let eleq ← asQ elev
    let lon ← Longitude.make lonq
    let lat ← Latitude.make latq
    .ok (Waypoint.mkPos lat lon (some eleq))
  | _ => .error .typeError

/-- The `time` block of `Waypoint._geojson_parse_properties`. -/
def stepTime (kvs : List (String × GVal)) (w : Waypoint) : Except Err Waypoint :=
  match dLookup kvs "time" with
  | none | some .null => .ok w
  | some v => do
    let t ← isoparse v
    .ok { w with time := some t }

/-- The `magvar` block of `Waypoint._geojson_parse_properties`. -/
def stepMagvar (kvs : List (String × GVal)) (w : Waypoint) : Except Err Waypoint :=
  match dLookup kvs "magvar" with
  | none | some .null => .ok w
  | some v => do
    let q ← asQ v
    .ok { w with magvar := some q }

/-- The `geoidheight` block of `Waypoint._geojson_parse_properties`. -/
def stepGeoidheight (kvs : List (String × GVal)) (w : Waypoint) : Except Err Waypoint :=
  match dLookup kvs "geoidheight" with
  | none | some .null => .ok w
  | some v => do
    let q ← asQ v
    .ok { w with geoidheight := some q }

/-- The `name` block of `Waypoint._geojson_parse_properties`. -/
def stepName (kvs : List (String × GVal)) (w : Waypoint) : Except Err Waypoint :=
  match dLookup kvs "name" with
  | none | some .null => .ok w
  | some v => do
    let s ← asStr v
    .ok { w with name := some s }

/-- The `cmt` block of `Waypoint._geojson_parse_properties`. -/
def stepCmt (kvs : List (String × GVal)) (w : Waypoint) : Except Err Waypoint :=
  match dLookup kvs "cmt" with
  | none | some .null => .ok w
  | some v => do
    let s ← asStr v
    .ok { w with cmt := some s }

/-- The `desc` block of `Waypoint._geojson_parse_properties`. -/
def stepDesc (kvs : List (String × GVal)) (w : Waypoint) : Except Err Waypoint :=
  match dLookup kvs "desc" with
  | none | some .null => .ok w
  | some v => do
    let s ← asStr v
    .ok { w with desc := some s }

/-- The `src` block of `Waypoint._geojson_parse_properties`. -/
def stepSrc (kvs : List (String × GVal)) (w : Waypoint) : Except Err Waypoint :=
  match dLookup kvs "src" with
  | none | some .null => .ok w
  | some v => do
    let s ← asStr v
    .ok { w with src := some s }

/-- The links loop of `Waypoint._geojson_parse_properties`
(`properties.get("links", [])`, each entry through `Link.from_dict`,
appended to the waypoint's list). -/
def stepLinks (kvs : List (String × GVal)) (w : Waypoint) : Except Err Waypoint :=
  match dLookup kvs "links" with
  | none => .ok w
  | some (.list ds) => do
    let ls ← ds.mapM Link.from_dict
    .ok { w with links := w.links ++ ls }
  | some _ => .error .typeError

/-- The `sym` block of `Waypoint._geojson_parse_properties`. -/
def stepSym (kvs : List (String × GVal)) (w : Waypoint) : Except Err Waypoint :=
  match dLookup kvs "sym" with
  | none | some .null => .ok w
  | some v => do
    let s ← asStr v
    .ok { w with sym := some s }

/-- The `type` block of `Waypoint._geojson_parse_properties`. -/
def stepType (kvs : List (String × GVal)) (w : Waypoint) : Except Err Waypoint :=
  match dLookup kvs "type" with
  | none | some .null => .ok w
  | some v => do
    let s ← asStr v
    .ok { w with type := some s }

/-- The `fix` block of `Waypoint._geojson_parse_properties` (`Fix(fix)`). -/
def stepFix (kvs : List (String × GVal)) (w : Waypoint) : Except Err Waypoint :=
  match dLookup kvs "fix" with
  | none | some .null => .ok w
  | some v => do
    let s ← asStr v
    let f ← Fix.ofStr s
    .ok { w with fix := some f }

/-- The `sat` block of `Waypoint._geojson_parse_properties` (`int(sat)`). -/
def stepSat (kvs : List (String × GVal)) (w : Waypoint) : Except Err Waypoint :=
  match dLookup kvs "sat" with
  | none | some .null => .ok w
  | some v => do
    let n ← asInt v
    .ok { w with sat := some n }

/-- The `hdop` block of `Waypoint._geojson_parse_properties`. -/
def stepHdop (kvs : List (String × GVal)) (w : Waypoint) : Except Err Waypoint :=
  match dLookup kvs "hdop" with
  | none | some .null => .ok w
  | some v => do
    let q ← asQ v
    .ok { w with hdop := some q }

/-- The `vdop` block of `Waypoint._geojson_parse_properties`. -/
def stepVdop (kvs : List (String × GVal)) (w : Waypoint) : Except Err Waypoint :=
  match dLookup kvs "vdop" with
  | none | some .null => .ok w
  | some v => do
    let q ← asQ v
    .ok { w with vdop := some q }

/-- The `pdop` block of `Waypoint._geojson_parse_properties`. -/
def stepPdop (kvs : List (String × GVal)) (w : Waypoint) : Except Err Waypoint :=
  match dLookup kvs "pdop" with
  | none | some .null => .ok w
  | some v => do
    let q ← asQ v
    .ok { w with pdop := some q }

/-- The `ageofdgpsdata` block of `Waypoint._geojson_parse_properties`. -/
def stepAge (kvs : List (String × GVal)) (w : Waypoint) : Except Err Waypoint :=
  match dLookup kvs "ageofdgpsdata" with
  | none | some .null => .ok w
  | some v => do
    let q ← asQ v
    .ok { w with ageofdgpsdata := some q }

/-- The `dgpsid` block of `Waypoint._geojson_parse_properties`
(`DGPSStation(dgpsid)`). -/
def stepDgpsid (kvs : List (String × GVal)) (w : Waypoint) : Except Err Waypoint :=
  match dLookup kvs "dgpsid" with
  | none | some .null => .ok w
  | some v => do
    let n ← asStation v
    .ok { w with dgpsid := some n }

/-- `Waypoint._geojson_parse_properties`: the source's field blocks in
order.  Called with `None` (the `properties` of a feature with no
metadata) the attribute access `properties.get` raises. -/
def Waypoint.geojson_parse_properties (w : Waypoint) (props : GVal) : Except Err Waypoint :=
  match props with
  | .obj kvs =>
    stepTime kvs w >>= stepMagvar kvs >>= stepGeoidheight kvs >>= stepName kvs >>=
      stepCmt kvs >>= stepDesc kvs >>= stepSrc kvs >>= stepLinks kvs >>=
      stepSym kvs >>= stepType kvs >>= stepFix kvs >>= stepSat kvs >>=
      stepHdop kvs >>= stepVdop kvs >>= stepPdop kvs >>= stepAge kvs >>=
      stepDgpsid kvs
  | _ => .error .attributeError

/-- The two output shapes of `Waypoint.to_geojson`. -/
inductive WptShape where
  | point
  | feature

/-- `Waypoint.to_geojson`: a bare `Point`, or a `Feature` wrapping it with
the property map (`None` when the map is empty). -/
def Waypoint.to_geojson (w : Waypoint) (ty : WptShape) : GVal :=
  let point := GVal.obj [("type", .str "Point"),
    ("coordinates", .list w.geojson_coordinates)]
  match ty with
  | .point => point
  | .feature =>
    let props := w.geojson_properties
    .obj [("type", .str "Feature"), ("geometry", point),
      ("properties", if props.isEmpty then .null else .obj props)]

/-- `Waypoint.from_geojson`: accepts a `Point` or a `Feature` wrapping a
`Point`; a mapping with any other discriminator is an unsupported type;
anything that is not a mapping with a `type` key is invalid GeoJSON. -/
def Waypoint.from_geojson (g : GVal) : Except Err Waypoint :=
  match g with
  | .obj kvs =>
    match dLookup kvs "type" with
    | some (.str s) =>
      if s = "Point" then do
        let coords ← dIndex (.obj kvs) "coordinates"
        match coords with
        | .list cs => Waypoint.geojson_from_coordinates cs
        | _ => .error .typeError
      else if s = "Feature" then do
        let geom ← dIndex (.obj kvs) "geometry"
        let gt ← dIndex geom "type"
        match gt with
        | .str gts =>
          if gts = "Point" then do
            let coords ← dIndex geom "coordinates"
            let w ← match coords with
              | .list cs => Waypoint.geojson_from_coordinates cs
              | _ => .error .typeError
            let props ← dIndex (.obj kvs) "properties"
            w.geojson_parse_properties props
          else .error .unsupportedType
        | _ => .error .unsupportedType
      else .error .unsupportedType
    | some _ => .error .unsupportedType
    | none => .error .invalidGeoJSON
  | _ => .error .invalidGeoJSON

/-! ## `TrackSegment` (`track_segment.py`), `Route` (`route.py`), `Track` (`track.py`) -/

/-- The `TrackSegment` entity: an ordered list of track points. -/
structure TrackSegment where
  trkpts : List Waypoint
  deriving DecidableEq

/-- Python `min` over a list (`ValueError` on an empty iterable). -/
def minListQ : List ℚ → Except Err ℚ
  | [] => .error .valueError
  | q :: rest => .ok (rest.foldl min q)

/-- Python `max` over a list (`ValueError` on an empty iterable). -/
def maxListQ : List ℚ → Except Err ℚ
  | [] => .error .valueError
  | q :: rest => .ok (rest.foldl max q)

/-- The elevations of the elevation-bearing points of a point list. -/
def elesOf (pts : List Waypoint) : List ℚ := pts.filterMap (·.ele)

/-- Modelled from the spec: the mixin `_geojson_bounds` over a point
sequence — "a Track/Route-level bounding box follows the same two-shape
rule over just that entity's own points": `(minlon, minlat, maxlon,
maxlat)`, with the min/max elevation inserted after `minlat` and before
`maxlon` when any point carries elevation (mirrors
`Track._geojson_bounds` in `track.py`). -/
def pointsGeojsonBounds (pts : List Waypoint) : Except Err (List ℚ) := do
  let minLat ← minListQ (pts.map (·.lat.val))
  let minLon ← minListQ (pts.map (·.lon.val))
  let maxLat ← maxListQ (pts.map (·.lat.val))
  let maxLon ← maxListQ (pts.map (·.lon.val))
  match elesOf pts with
  | [] => .ok [minLon, minLat, maxLon, maxLat]
  | e :: rest =>
    .ok [minLon, minLat, rest.foldl min e, maxLon, maxLat, rest.foldl max e]

/-- The segment-level `_geojson_bounds` (from the missing `mixins.py`). -/
def TrackSegment.geojson_bounds (ts : TrackSegment) : Except Err (List ℚ) :=
  pointsGeojsonBounds ts.trkpts

/-- The two output shapes of the LineString-based entities. -/
inductive LineShape where
  | lineString
  | feature

/-- `TrackSegment.to_geojson`: a bare `LineString` (with bbox), or a
`Feature` whose only possible property is the `coordinatesProperties`
side channel; the `properties` key is omitted when there is none. -/
def TrackSegment.to_geojson (ts : TrackSegment) (ty : LineShape) : Except Err GVal := do
  let coordinates := ts.trkpts.map fun p => GVal.list p.geojson_coordinates
  let bb ← ts.geojson_bounds
  let linestring := GVal.obj [("type", .str "LineString"),
    ("bbox", .list (bb.map fun q => .dec (.fin q))),
    ("coordinates", .list coordinates)]
  match ty with
  | .lineString => .ok linestring
  | .feature =>
    let cps := ts.trkpts.map (·.geojson_properties)
    let properties : List (String × GVal) :=
      if cps.any (fun cp => !cp.isEmpty) then
        [("coordinatesProperties", .list (cps.map fun cp => .obj cp))]
      else []
    .ok (.obj ([("type", .str "Feature"), ("geometry", linestring)] ++
      (if properties.isEmpty then [] else [("properties", GVal.obj properties)])))

/-- The `Route` entity. -/
structure Route where
  name : Option String
  cmt : Option String
  desc : Option String
  src : Option String
  links : List Link
  number : Option ℤ
  type : Option String
  rtepts : List Waypoint
  deriving DecidableEq

/-- A route with every field at its `Route.__init__` default. -/
def Route.empty : Route := ⟨none, none, none, none, [], none, none, []⟩

/-- The route-level `_geojson_bounds` (from the missing `mixins.py`). -/
def Route.geojson_bounds (r : Route) : Except Err (List ℚ) :=
  pointsGeojsonBounds r.rtepts

/-- The `name` block of `Route.from_geojson`'s property section. -/
def rStepName (pkvs : List (String × GVal)) (r : Route) : Except Err Route :=
  match dLookup pkvs "name" with
  | none | some .null => .ok r
  | some v => do let s ← asStr v; .ok { r with name := some s }

/-- The `cmt` block of `Route.from_geojson`'s property section. -/
def rStepCmt (pkvs : List (String × GVal)) (r : Route) : Except Err Route :=
  match dLookup pkvs "cmt" with
  | none | some .null => .ok r
  | some v => do let s ← asStr v; .ok { r with cmt := some s }

/-- The `desc` block of `Route.from_geojson`'s property section. -/
def rStepDesc (pkvs : List (String × GVal)) (r : Route) : Except Err Route :=
  match dLookup pkvs "desc" with
  | none | some .null => .ok r
  | some v => do let s ← asStr v; .ok { r with desc := some s }

/-- The `src` block of `Route.from_geojson`'s property section. -/
def rStepSrc (pkvs : List (String × GVal)) (r : Route) : Except Err Route :=
  match dLookup pkvs "src" with
  | none | some .null => .ok r
  | some v => do let s ← asStr v; .ok { r with src := some s }

/-- The links loop of `Route.from_geojson`'s property section. -/
def rStepLinks (pkvs : List (String × GVal)) (r : Route) : Except Err Route :=
  match dLookup pkvs "links" with
  | none => .ok r
  | some (.list ds) => do
    let ls ← ds.mapM Link.from_dict
    .ok { r with links := r.links ++ ls }
  | some _ => .error .typeError

/-- The `number` block of `Route.from_geojson`'s property section. -/
def rStepNumber (pkvs : List (String × GVal)) (r : Route) : Except Err Route :=
  match dLookup pkvs "number" with
  | none | some .null => .ok r
  | some v => do let n ← asInt v; .ok { r with number := some n }

/-- The `type` block of `Route.from_geojson`'s property section. -/
def rStepType (pkvs : List (String × GVal)) (r : Route) : Except Err Route :=
  match dLookup pkvs "type" with
  | none | some .null => .ok r
  | some v => do let s ← asStr v; .ok { r with type := some s }

/-- The shared `name`/`cmt`/`desc`/`src`/`links`/`number`/`type` blocks of
`Route.from_geojson`, reading the feature's property dict in source
order. -/
def Route.parseProps (pkvs : List (String × GVal)) (r : Route) : Except Err Route :=
  rStepName pkvs r >>= rStepCmt pkvs >>= rStepDesc pkvs >>= rStepSrc pkvs >>=
    rStepLinks pkvs >>= rStepNumber pkvs >>= rStepType pkvs

/-- Parse one coordinate entry of a LineString coordinate array
(`Waypoint._geojson_from_coordinates(*coordinates)`). -/
def parseCoordEntry (c : GVal) : Except Err Waypoint :=
  match c with
  | .list cc => Waypoint.geojson_from_coordinates cc
  | _ => .error .typeError

/-- `Route.from_geojson`: accepts a `LineString` or a `Feature` wrapping
one, zipping `coordinatesProperties` against the coordinates when the
side channel is present. -/
def Route.from_geojson (g : GVal) : Except Err Route :=
  match g with
  | .obj kvs =>
    match dLookup kvs "type" with
    | some (.str s) =>
      if s = "LineString" then do
        let coords ← dIndex (.obj kvs) "coordinates"
        match coords with
        | .list cs => do
          let pts ← cs.mapM parseCoordEntry
          .ok { Route.empty with rtepts := pts }
        | _ => .error .typeError
      else if s = "Feature" then do
        let geom ← dIndex (.obj kvs) "geometry"
        let gt ← dIndex geom "type"
        match gt with
        | .str gts =>
          if gts = "LineString" then do
            let props ← dIndex (.obj kvs) "properties"
            -- `"coordinatesProperties" in geojson["properties"]`:
            -- membership on `None` (and other non-dict values the mapper
            -- can produce here) raises
            match props with
            | .obj pkvs => do
              let pts ← match dLookup pkvs "coordinatesProperties" with
                | some cpv => do
                  let coords ← dIndex geom "coordinates"
                  match coords, cpv with
                  | .list cs, .list cps =>
                    (cs.zip cps).mapM fun cp => do
                      let w ← parseCoordEntry cp.1
                      w.geojson_parse_properties cp.2
                  | _, _ => .error .typeError
                | none => do
                  let coords ← dIndex geom "coordinates"
                  match coords with
                  | .list cs => cs.mapM parseCoordEntry
                  | _ => .error .typeError
              Route.parseProps pkvs { Route.empty with rtepts := pts }
            | _ => .error .typeError
          else .error .unsupportedType
        | _ => .error .unsupportedType
      else .error .unsupportedType
    | some _ => .error .unsupportedType
    | none => .error .invalidGeoJSON
  | _ => .error .invalidGeoJSON

/-- `Route.to_geojson`: a bare `LineString` (with bbox), or a `Feature`
with the route's property map, extended with the per-point
`coordinatesProperties` side channel when any point carries metadata
(`properties` is `None` when the whole map is empty). -/
def Route.to_geojson (r : Route) (ty : LineShape) : Except Err GVal := do
  let coordinates := r.rtepts.map fun p => GVal.list p.geojson_coordinates
  let bb ← r.geojson_bounds
  let linestring := GVal.obj [("type", .str "LineString"),
    ("bbox", .list (bb.map fun q => .dec (.fin q))),
    ("coordinates", .list coordinates)]
  match ty with
  | .lineString => .ok linestring
  | .feature =>
    let properties := filter_geojson_properties
      [("name", encS r.name), ("cmt", encS r.cmt), ("desc", encS r.desc),
       ("src", encS r.src), ("links", .list (r.links.map Link.to_dict)),
       ("number", encI r.number), ("type", encS r.type)]
    let cps := r.rtepts.map (·.geojson_properties)
    let properties :=
      if cps.any (fun cp => !cp.isEmpty) then
        properties ++ [("coordinatesProperties", .list (cps.map fun cp => .obj cp))]
      else properties
    .ok (.obj [("type", .str "Feature"), ("geometry", linestring),
      ("properties", if properties.isEmpty then .null else .obj properties)])

/-- The `Track` entity. -/
structure Track where
  name : Option String
  cmt : Option String
  desc : Option String
  src : Option String
  links : List Link
  number : Option ℤ
  type : Option String
  trksegs : List TrackSegment
  deriving DecidableEq

/-- A track with every field at its `Track.__init__` default. -/
def Track.empty : Track := ⟨none, none, none, none, [], none, none, []⟩

/-- All track points of a track, pooled across segments in order. -/
def Track.allPoints (t : Track) : List Waypoint :=
  (t.trksegs.map (·.trkpts)).flatten

/-- `Track._geojson_bounds` (from `track.py`): `Track.bounds` reordered to
GeoJSON order, with elevation bounds inserted when any point has
elevation. -/
def Track.geojson_bounds (t : Track) : Except Err (List ℚ) :=
  pointsGeojsonBounds t.allPoints

/-- The `name` block of `Track.from_geojson`'s property section. -/
def tStepName (pkvs : List (String × GVal)) (t : Track) : Except Err Track :=
  match dLookup pkvs "name" with
  | none | some .null => .ok t
  | some v => do let s ← asStr v; .ok { t with name := some s }

/-- The `cmt` block of `Track.from_geojson`'s property section. -/
def tStepCmt (pkvs : List (String × GVal)) (t : Track) : Except Err Track :=
  match dLookup pkvs "cmt" with
  | none | some .null => .ok t
  | some v => do let s ← asStr v; .ok { t with cmt := some s }

/-- The `desc` block of `Track.from_geojson`'s property section. -/
def tStepDesc (pkvs : List (String × GVal)) (t : Track) : Except Err Track :=
  match dLookup pkvs "desc" with
  | none | some .null => .ok t
  | some v => do let s ← asStr v; .ok { t with desc := some s }

/-- The `src` block of `Track.from_geojson`'s property section. -/
def tStepSrc (pkvs : List (String × GVal)) (t : Track) : Except Err Track :=
  match dLookup pkvs "src" with
  | none | some .null => .ok t
  | some v => do let s ← asStr v; .ok { t with src := some s }

/-- The links loop of `Track.from_geojson`'s property section. -/
def tStepLinks (pkvs : List (String × GVal)) (t : Track) : Except Err Track :=
  match dLookup pkvs "links" with
  | none => .ok t
  | some (.list ds) => do
    let ls ← ds.mapM Link.from_dict
    .ok { t with links := t.links ++ ls }
  | some _ => .error .typeError

/-- The `number` block of `Track.from_geojson`'s property section. -/
def tStepNumber (pkvs : List (String × GVal)) (t : Track) : Except Err Track :=
  match dLookup pkvs "number" with
  | none | some .null => .ok t
  | some v => do let n ← asInt v; .ok { t with number := some n }

/-- The `type` block of `Track.from_geojson`'s property section. -/
def tStepType (pkvs : List (String × GVal)) (t : Track) : Except Err Track :=
  match dLookup pkvs "type" with
  | none | some .null => .ok t
  | some v => do let s ← asStr v; .ok { t with type := some s }

/-- The shared property blocks of `Track.from_geojson` (same shape as
`Route.parseProps`). -/
def Track.parseProps (pkvs : List (String × GVal)) (t : Track) : Except Err Track :=
  tStepName pkvs t >>= tStepCmt pkvs >>= tStepDesc pkvs >>= tStepSrc pkvs >>=
    tStepLinks pkvs >>= tStepNumber pkvs >>= tStepType pkvs

/-- Parse one segment's coordinate array (the inner loop of the
`MultiLineString` branches). -/
def parseSegCoords (sc : GVal) : Except Err TrackSegment :=
  match sc with
  | .list cs => do
    let pts ← cs.mapM parseCoordEntry
    .ok ⟨pts⟩
  | _ => .error .typeError

/-- Parse one segment's coordinate array zipped against its
`coordinatesProperties` entry (the inner loop of
`Track.from_geojson`'s side-channel branch). -/
def parseSegWithProps (sp : GVal × GVal) : Except Err TrackSegment :=
  match sp.1, sp.2 with
  | .list cs, .list ps => do
    let pts ← (cs.zip ps).mapM fun cp => do
      let w ← parseCoordEntry cp.1
      w.geojson_parse_properties cp.2
    .ok ⟨pts⟩
  | _, _ => .error .typeError

/-- `Track.from_geojson`.  Unlike `Waypoint.from_geojson` and
`Route.from_geojson`, the source has no `isinstance(geojson, dict) and
"type" in geojson` guard — it subscripts the value directly — and its
rejection branch raises a plain `ValueError` rather than
`UnsupportedGeoJSONTypeError`. -/
def Track.from_geojson (g : GVal) : Except Err Track := do
  let tv ← dIndex g "type"
  match tv with
  | .str s =>
    if s = "MultiLineString" then do
      let coords ← dIndex g "coordinates"
      match coords with
      | .list segs => do
        let trksegs ← segs.mapM parseSegCoords
        .ok { Track.empty with trksegs := trksegs }
      | _ => .error .typeError
    else if s = "Feature" then do
      let geom ← dIndex g "geometry"
      let gt ← dIndex geom "type"
      match gt with
      | .str gts =>
        if gts = "MultiLineString" then do
          let props ← dIndex g "properties"
          match props with
          | .obj pkvs => do
            let trksegs ← match dLookup pkvs "coordinatesProperties" with
              | some cpv => do
                let coords ← dIndex geom "coordinates"
                match coords, cpv with
                | .list segs, .list cps => (segs.zip cps).mapM parseSegWithProps
                | _, _ => .error .typeError
              | none => do
                let coords ← dIndex geom "coordinates"
                match coords with
                | .list segs => segs.mapM parseSegCoords
                | _ => .error .typeError
            Track.parseProps pkvs { Track.empty with trksegs := trksegs }
          | _ => .error .typeError
        else .error .valueError
      | _ => .error .valueError
    else .error .valueError
  | _ => .error .valueError

/-- The two output shapes of `Track.to_geojson`. -/
inductive TrkShape where
  | multiLineString
  | feature

/-- `Track.to_geojson`: a bare `MultiLineString` (with bbox), or a
`Feature` with the track's property map extended with the nested
`coordinatesProperties` side channel; the `properties` key is omitted
entirely when the map is empty. -/
def Track.to_geojson (t : Track) (ty : TrkShape) : Except Err GVal := do
  let coordinates := t.trksegs.map fun ts =>
    GVal.list (ts.trkpts.map fun p => GVal.list p.geojson_coordinates)
  let bb ← t.geojson_bounds
  let mls := GVal.obj [("type", .str "MultiLineString"),
    ("bbox", .list (bb.map fun q => .dec (.fin q))),
    ("coordinates", .list coordinates)]
  match ty with
  | .multiLineString => .ok mls
  | .feature =>
    let properties := filter_geojson_properties
      [("name", encS t.name), ("cmt", encS t.cmt), ("desc", encS t.desc),
       ("src", encS t.src), ("links", .list (t.links.map Link.to_dict)),
       ("number", encI t.number), ("type", encS t.type)]
    let cps := t.trksegs.map fun ts => ts.trkpts.map (·.geojson_properties)
    let properties :=
      if cps.any (fun scp => scp.any fun cp => !cp.isEmpty) then
        properties ++
          [("coordinatesProperties",
            .list (cps.map fun scp => GVal.list (scp.map fun cp => .obj cp)))]
      else properties
    .ok (.obj ([("type", .str "Feature"), ("geometry", mls)] ++
      (if properties.isEmpty then [] else [("properties", GVal.obj properties)])))

/-! ## `GPX` (`gpx.py`) and `Metadata` (modelled) -/

/-- Modelled from the spec: the `Person` entity of the missing
`person.py` — "name, optional email, optional Link". -/
structure Person where
  name : Option String
  email : Option String
  link : Option Link
  deriving DecidableEq

/-- Modelled from the spec: the `Copyright` entity of the missing
`copyright.py` — "author attribution string, optional year, optional
license Link". -/
structure Copyright where
  author : String
  year : Option ℤ
  license : Option Link
  deriving DecidableEq

/-- Modelled from the spec: the `Bounds` entity of the missing
`bounds.py` — "four decimal bounds (min/max latitude, min/max
longitude)". -/
structure BoundsE where
  minlat : ℚ
  minlon : ℚ
  maxlat : ℚ
  maxlon : ℚ
  deriving DecidableEq

/-- Modelled from the spec: the `Metadata` entity of the missing
`metadata.py` — "name, description, optional author (Person), optional
copyright, ordered sequence of Link, optional creation time, keywords,
optional Bounds", all empty on construction. -/
structure Metadata where
  name : Option String
  desc : Option String
  author : Option Person
  copyright : Option Copyright
  links : List Link
  time : Option DTime
  keywords : Option String
  bounds : Option BoundsE
  deriving DecidableEq

/-- A freshly constructed `Metadata()`. -/
def Metadata.empty : Metadata := ⟨none, none, none, none, [], none, none, none⟩

/-- The `GPX` document entity. -/
structure GPX where
  creator : String
  metadata : Option Metadata
  wpts : List Waypoint
  rtes : List Route
  trks : List Track
  deriving DecidableEq

/-- A freshly constructed `GPX()` document. -/
def GPX.fresh : GPX := ⟨"PyGPX", none, [], [], []⟩

/-- The `GPX.name` proxy getter: reads through `Metadata` when present. -/
def GPX.nameGet (g : GPX) : Option String :=
  match g.metadata with
  | some m => m.name
  | none => none

/-- The `GPX.name` proxy setter: allocates `Metadata` on first write. -/
def GPX.nameSet (g : GPX) (v : String) : GPX :=
  let m := match g.metadata with
    | none => Metadata.empty
    | some m => m
  { g with metadata := some { m with name := some v } }

/-- The `GPX.desc` proxy getter. -/
def GPX.descGet (g : GPX) : Option String :=
  match g.metadata with
  | some m => m.desc
  | none => none

/-- The `GPX.desc` proxy setter. -/
def GPX.descSet (g : GPX) (v : String) : GPX :=
  let m := match g.metadata with
    | none => Metadata.empty
    | some m => m
  { g with metadata := some { m with desc := some v } }

/-- The `GPX.author` proxy getter. -/
def GPX.authorGet (g : GPX) : Option Person :=
  match g.metadata with
  | some m => m.author
  | none => none

/-- The `GPX.author` proxy setter. -/
def GPX.authorSet (g : GPX) (v : Person) : GPX :=
  let m := match g.metadata with
    | none => Metadata.empty
    | some m => m
  { g with metadata := some { m with author := some v } }

/-- The `GPX.copyright` proxy getter. -/
def GPX.copyrightGet (g : GPX) : Option Copyright :=
  match g.metadata with
  | some m => m.copyright
  | none => none

/-- The `GPX.copyright` proxy setter. -/
def GPX.copyrightSet (g : GPX) (v : Copyright) : GPX :=
  let m := match g.metadata with
    | none => Metadata.empty
    | some m => m
  { g with metadata := some { m with copyright := some v } }

/-- The `GPX.links` proxy getter. -/
def GPX.linksGet (g : GPX) : Option (List Link) :=
  match g.metadata with
  | some m => some m.links
  | none => none

/-- The `GPX.links` proxy setter. -/
def GPX.linksSet (g : GPX) (v : List Link) : GPX :=
  let m := match g.metadata with
    | none => Metadata.empty
    | some m => m
  { g with metadata := some { m with links := v } }

/-- The `GPX.time` proxy getter. -/
def GPX.timeGet (g : GPX) : Option DTime :=
  match g.metadata with
  | some m => m.time
  | none => none

/-- The `GPX.time` proxy setter. -/
def GPX.timeSet (g : GPX) (v : DTime) : GPX :=
  let m := match g.metadata with
    | none => Metadata.empty
    | some m => m
  { g with metadata := some { m with time := some v } }

/-- The `GPX.keywords` proxy getter. -/
def GPX.keywordsGet (g : GPX) : Option String :=
  match g.metadata with
  | some m => m.keywords
  | none => none

/-- The `GPX.keywords` proxy setter. -/
def GPX.keywordsSet (g : GPX) (v : String) : GPX :=
  let m := match g.metadata with
    | none => Metadata.empty
    | some m => m
  { g with metadata := some { m with keywords := some v } }

/-- The `GPX.bounds` proxy getter. -/
def GPX.boundsGet (g : GPX) : Option BoundsE :=
  match g.metadata with
  | some m => m.bounds
  | none => none

/-- The `GPX.bounds` proxy setter. -/
def GPX.boundsSet (g : GPX) (v : BoundsE) : GPX :=
  let m := match g.metadata with
    | none => Metadata.empty
    | some m => m
  { g with metadata := some { m with bounds := some v } }

/-- The state of `GPX._geojson_bounds`'s fold:
`(min_lon, max_lon, min_lat, max_lat, min_ele, max_ele)`. -/
abbrev BState := EDec × EDec × EDec × EDec × EDec × EDec

/-- The per-waypoint update of `GPX._geojson_bounds`. -/
def foldWpt (st : BState) (w : Waypoint) : BState :=
  let (minLon, maxLon, minLat, maxLat, minEle, maxEle) := st
  let minLon := EDec.emin minLon (.fin w.lon.val)
  let maxLon := EDec.emax maxLon (.fin w.lon.val)
  let minLat := EDec.emin minLat (.fin w.lat.val)
  let maxLat := EDec.emax maxLat (.fin w.lat.val)
  match w.ele with
  | some e =>
    (minLon, maxLon, minLat, maxLat, EDec.emin minEle (.fin e), EDec.emax maxEle (.fin e))
  | none => (minLon, maxLon, minLat, maxLat, minEle, maxEle)

/-- The per-route/track update of `GPX._geojson_bounds`, dispatching on
the length of the entity's own bounds tuple (4 without elevation, 6 with;
any other length falls through untouched, as in the source's
`if`/`elif`). -/
def foldEntity (st : BState) (b : List ℚ) : BState :=
  let (minLon, maxLon, minLat, maxLat, minEle, maxEle) := st
  match b with
  | [bMinLon, bMinLat, bMaxLon, bMaxLat] =>
    (EDec.emin minLon (.fin bMinLon), EDec.emax maxLon (.fin bMaxLon),
     EDec.emin minLat (.fin bMinLat), EDec.emax maxLat (.fin bMaxLat),
     minEle, maxEle)
  | [bMinLon, bMinLat, bMinEle, bMaxLon, bMaxLat, bMaxEle] =>
    (EDec.emin minLon (.fin bMinLon), EDec.emax maxLon (.fin bMaxLon),
     EDec.emin minLat (.fin bMinLat), EDec.emax maxLat (.fin bMaxLat),
     EDec.emin minEle (.fin bMinEle), EDec.emax maxEle (.fin bMaxEle))
  | _ => (minLon, maxLon, minLat, maxLat, minEle, maxEle)

/-- `GPX._geojson_bounds`: fold min/max longitude, latitude and (when any
point carries one) elevation across every waypoint and every route/track,
starting from the infinities; the elevation slots are dropped when they
were never touched. -/
def GPX.geojson_bounds (g : GPX) : Except Err (List EDec) := do
  let st : BState := (.posInf, .negInf, .posInf, .negInf, .posInf, .negInf)
  let st := g.wpts.foldl foldWpt st
  let st ← g.rtes.foldlM (fun st r => do
    let b ← r.geojson_bounds
    .ok (foldEntity st b)) st
  let st ← g.trks.foldlM (fun st t => do
    let b ← t.geojson_bounds
    .ok (foldEntity st b)) st
  let (minLon, maxLon, minLat, maxLat, minEle, maxEle) := st
  if minEle = .posInf ∧ maxEle = .negInf then
    .ok [minLon, minLat, maxLon, maxLat]
  else
    .ok [minLon, minLat, minEle, maxLon, maxLat, maxEle]

/-- The two output shapes of `GPX.to_geojson`. -/
inductive CollShape where
  | geometryCollection
  | featureCollection

/-- `GPX.to_geojson`: a `GeometryCollection` of every entity's bare
geometry, or a `FeatureCollection` of every entity's feature shape; both
carry the document bounds as `bbox`. -/
def GPX.to_geojson (g : GPX) (ty : CollShape) : Except Err GVal := do
  match ty with
  | .geometryCollection => do
    let wg := g.wpts.map fun w => w.to_geojson .point
    let rg ← g.rtes.mapM fun r => r.to_geojson .lineString
    let tg ← g.trks.mapM fun t => t.to_geojson .multiLineString
    let bb ← g.geojson_bounds
    .ok (.obj [("type", .str "GeometryCollection"),
      ("bbox", .list (bb.map GVal.dec)),
      ("geometries", .list (wg ++ rg ++ tg))])
  | .featureCollection => do
    let wf := g.wpts.map fun w => w.to_geojson .feature
    let rf ← g.rtes.mapM fun r => r.to_geojson .feature
    let tf ← g.trks.mapM fun t => t.to_geojson .feature
    let bb ← g.geojson_bounds
    .ok (.obj [("type", .str "FeatureCollection"),
      ("bbox", .list (bb.map GVal.dec)),
      ("features", .list (wf ++ rf ++ tf))])

/-! ## Trajectory statistics -/

/-- `Track.avg_elevation` (from `track.py`): pool the elevations of all
elevation-bearing points of all segments and divide their sum by their
count. -/
def Track.avg_elevation (t : Track) : ℚ :=
  let eles := (t.trksegs.map fun ts => elesOf ts.trkpts).flatten
  eles.foldl (· + ·) 0 / eles.length

/-- Modelled from the spec: the segment-level average elevation of the
missing `mixins.py` — "min/max/avg elevation (over points with elevation
present; average divides by the count of such points)". -/
def TrackSegment.avg_elevation (ts : TrackSegment) : ℚ :=
  let eles := elesOf ts.trkpts
  eles.foldl (· + ·) 0 / eles.length

/-! ## `Waypoint.distance_to` -/

/-- `math.radians`. -/
noncomputable def radiansR (x : ℚ) : ℝ := (x : ℝ) * Real.pi / 180

/-- `math.atan2`, by the usual quadrant-corrected arctangent. -/
noncomputable def atan2 (y x : ℝ) : ℝ :=
  if 0 < x then Real.arctan (y / x)
  else if x < 0 ∧ 0 ≤ y then Real.arctan (y / x) + Real.pi
  else if x < 0 ∧ y < 0 then Real.arctan (y / x) - Real.pi
  else if x = 0 ∧ 0 < y then Real.pi / 2
  else if x = 0 ∧ y < 0 then -(Real.pi / 2)
  else 0

/-- The haversine central angle `δ` between two waypoints, as computed by
`Waypoint.distance_to`'s body. -/
noncomputable def Waypoint.centralAngle (w v : Waypoint) : ℝ :=
  let φ1 := radiansR w.lat.val
  let lon1 := radiansR w.lon.val
  let φ2 := radiansR v.lat.val
  let lon2 := radiansR v.lon.val
  let Δφ := φ2 - φ1
  let Δlon := lon2 - lon1
  let a := Real.sin (Δφ / 2) * Real.sin (Δφ / 2) +
    Real.cos φ1 * Real.cos φ2 * Real.sin (Δlon / 2) * Real.sin (Δlon / 2)
  2 * atan2 (Real.sqrt a) (Real.sqrt (1 - a))

/-- The `radius` parameter's default, `6_378_137` metres (the WGS-84
equatorial radius). -/
def Waypoint.defaultRadius : ℚ := 6378137

/-- `Waypoint.distance_to` with an explicit radius argument. -/
noncomputable def Waypoint.distance_to (w v : Waypoint) (radius : ℝ) : ℝ :=
  radius * Waypoint.centralAngle w v

/-- `Waypoint.distance_to` at the default radius. -/
noncomputable def Waypoint.distance_to_default (w v : Waypoint) : ℝ :=
  Waypoint.distance_to w v (Waypoint.defaultRadius : ℝ)

/-! ## Shared fixtures and helper definitions for the verification -/

deriving instance DecidableEq for Except

/-- The `isinstance(geojson, dict) and "type" in geojson` guard of
`Waypoint.from_geojson` and `Route.from_geojson` as a predicate. -/
def isDictWithType : GVal → Bool
  | .obj kvs => (dLookup kvs "type").isSome
  | _ => false

/-- Latitude zero. -/
def lat0 : Latitude := ⟨0, by norm_num⟩

/-- Longitude zero. -/
def lon0 : Longitude := ⟨0, by norm_num⟩

/-- Longitude one degree. -/
def lon1 : Longitude := ⟨1, by norm_num⟩

/-- A bare waypoint at the origin: no optional field set. -/
def wpBare : Waypoint := Waypoint.mkPos lat0 lon0 none

/-- A waypoint at longitude 1 on the equator. -/
def wpLon1 : Waypoint := Waypoint.mkPos lat0 lon1 none

/-- A waypoint carrying one non-geometric field. -/
def wpName : Waypoint := { Waypoint.mkPos lat0 lon0 none with name := some "summit" }

/-- A waypoint with every round-trippable optional field populated. -/
def wpFull : Waypoint :=
  { lat := ⟨45, by norm_num⟩, lon := ⟨-122, by norm_num⟩, ele := some 12,
    time := none, magvar := some 3, geoidheight := some (-17), name := some "n",
    cmt := some "c", desc := some "d", src := some "s",
    links := [⟨"http://e.x", some "t", none⟩, ⟨"http://y.z", none, some "text/html"⟩],
    sym := some "Flag", type := some "poi", fix := some .fix3d, sat := some 7,
    hdop := some 1, vdop := some 2, pdop := some 3, ageofdgpsdata := some 9,
    dgpsid := some 42 }

/-- A waypoint at the origin with the given elevation. -/
def wpEle (e : ℚ) : Waypoint := Waypoint.mkPos lat0 lon0 (some e)

/-- A two-segment track with elevations `[0]` and `[6, 12, —]`
(the last point has none). -/
def trkEles : Track :=
  { Track.empty with trksegs := [⟨[wpEle 0]⟩, ⟨[wpEle 6, wpEle 12, wpBare]⟩] }

/-- The pooled elevation list of a track (every elevation-bearing point of
every segment, in order). -/
def Track.pooledEles (t : Track) : List ℚ := t.allPoints.filterMap (·.ele)

/-- A one-point segment whose point carries a name. -/
def segNamed : TrackSegment := ⟨[wpName, wpBare]⟩

/-- A UTC-aware timestamp with sub-second data. -/
def dtUTC : DTime := ⟨2023, 1, 1, 12, 30, 45, 123456, some 0⟩

/-- A property entry after `None`-filtering: present exactly when the
value is not `None`. -/
def optE (k : String) (v : GVal) : List (String × GVal) :=
  if v.isNull then [] else [(k, v)]

/-- The `links` entry after empty-links removal: present exactly when the
link list is non-empty. -/
def linksE (ls : List Link) : List (String × GVal) :=
  match ls with
  | [] => []
  | _ => [("links", .list (ls.map Link.to_dict))]

/-- A route fixture for the round-trip witness. -/
def rteW : Route := { Route.empty with number := some 3, rtepts := [wpBare, wpName] }

/-- A track fixture for the round-trip witness (one full segment and one
empty one). -/
def trkW : Track :=
  { Track.empty with name := some "t", trksegs := [⟨[wpFull, wpBare]⟩, ⟨[]⟩] }



/-- `Except` bind on an error short-circuits. -/
@[simp] theorem errBind {α β : Type} (e : Err) (f : α → Except Err β) :
    (Except.error e : Except Err α) >>= f = .error e := rfl

/-- `Except` bind on a success applies the continuation. -/
@[simp] theorem okBind {α β : Type} (a : α) (f : α → Except Err β) :
    (Except.ok a : Except Err α) >>= f = f a := rfl





/-! ## C9 / C10: document-level properties -/

/-- C9: a fresh `GPX` document has no `Metadata` and every proxy getter
reads `None`; the first write through any proxy setter allocates a fresh
`Metadata` carrying exactly the written field, and the getter then reads
the written value back. -/
theorem C9_lazy_metadata_proxies :
    (GPX.fresh.metadata = none ∧ GPX.fresh.nameGet = none ∧ GPX.fresh.descGet = none ∧
      GPX.fresh.authorGet = none ∧ GPX.fresh.copyrightGet = none ∧
      GPX.fresh.linksGet = none ∧ GPX.fresh.timeGet = none ∧
      GPX.fresh.keywordsGet = none ∧ GPX.fresh.boundsGet = none)
    ∧ (∀ v : String, (GPX.fresh.nameSet v).metadata = some { Metadata.empty with name := some v }
        ∧ (GPX.fresh.nameSet v).nameGet = some v)
    ∧ (∀ v : String, (GPX.fresh.descSet v).metadata = some { Metadata.empty with desc := some v }
        ∧ (GPX.fresh.descSet v).descGet = some v)
    ∧ (∀ v : Person, (GPX.fresh.authorSet v).metadata = some { Metadata.empty with author := some v }
        ∧ (GPX.fresh.authorSet v).authorGet = some v)
    ∧ (∀ v : Copyright, (GPX.fresh.copyrightSet v).metadata = some { Metadata.empty with copyright := some v }
        ∧ (GPX.fresh.copyrightSet v).copyrightGet = some v)
    ∧ (∀ v : List Link, (GPX.fresh.linksSet v).metadata = some { Metadata.empty with links := v }
        ∧ (GPX.fresh.linksSet v).linksGet = some v)
    ∧ (∀ v : DTime, (GPX.fresh.timeSet v).metadata = some { Metadata.empty with time := some v }
        ∧ (GPX.fresh.timeSet v).timeGet = some v)
    ∧ (∀ v : String, (GPX.fresh.keywordsSet v).metadata = some { Metadata.empty with keywords := some v }
        ∧ (GPX.fresh.keywordsSet v).keywordsGet = some v)
    ∧ (∀ v : BoundsE, (GPX.fresh.boundsSet v).metadata = some { Metadata.empty with bounds := some v }
        ∧ (GPX.fresh.boundsSet v).boundsGet = some v) :=
  ⟨⟨rfl, rfl, rfl, rfl, rfl, rfl, rfl, rfl, rfl⟩,
    fun _ => ⟨rfl, rfl⟩, fun _ => ⟨rfl, rfl⟩, fun _ => ⟨rfl, rfl⟩,
    fun _ => ⟨rfl, rfl⟩, fun _ => ⟨rfl, rfl⟩, fun _ => ⟨rfl, rfl⟩,
    fun _ => ⟨rfl, rfl⟩, fun _ => ⟨rfl, rfl⟩⟩

/-- C10: on a document with no waypoints, routes or tracks, the GeoJSON
bounds computation succeeds with `(Infinity, Infinity, -Infinity,
-Infinity)`, and that value is embedded as the `bbox` of both collection
shapes. -/
theorem C10_empty_document_bounds :
    GPX.geojson_bounds GPX.fresh = .ok [.posInf, .posInf, .negInf, .negInf]
    ∧ GPX.to_geojson GPX.fresh .featureCollection = .ok (.obj
        [("type", .str "FeatureCollection"),
         ("bbox", .list [.dec .posInf, .dec .posInf, .dec .negInf, .dec .negInf]),
         ("features", .list [])])
    ∧ GPX.to_geojson GPX.fresh .geometryCollection = .ok (.obj
        [("type", .str "GeometryCollection"),
         ("bbox", .list [.dec .posInf, .dec .posInf, .dec .negInf, .dec .negInf]),
         ("geometries", .list [])]) :=
  ⟨rfl, rfl, rfl⟩

/-! ## C3 / C4: rejection of malformed interchange values -/

/-- C3 counterexample: on a value that is not a mapping with a `type`
key, `Track.from_geojson` raises a plain `TypeError`-style subscript
failure rather than the invalid-document error the claim asserts for all
three entities. -/
theorem C3_counterexample_track_not_invalid :
    Track.from_geojson (.str "not a mapping") = .error .typeError
    ∧ Err.typeError ≠ Err.invalidGeoJSON :=
  ⟨rfl, by decide⟩

/-- C3 (amended): on every value that is not a mapping carrying a `type`
key, `Waypoint.from_geojson` and `Route.from_geojson` raise the
invalid-document error, while `Track.from_geojson` — which lacks the
guard — fails with a generic lookup error (`KeyError` on a mapping
without `type`, `TypeError` otherwise), never the invalid-document
error. -/
theorem C3_invalid_document_rejection (g : GVal) (h : isDictWithType g = false) :
    Waypoint.from_geojson g = .error .invalidGeoJSON
    ∧ Route.from_geojson g = .error .invalidGeoJSON
    ∧ (Track.from_geojson g = .error .keyError ∨ Track.from_geojson g = .error .typeError)
    ∧ Track.from_geojson g ≠ .error .invalidGeoJSON := by
  cases g with
  | obj kvs =>
    cases hl : dLookup kvs "type" with
    | some v => simp [isDictWithType, hl] at h
    | none =>
      refine ⟨?_, ?_, Or.inl ?_, ?_⟩ <;>
        simp [Waypoint.from_geojson, Route.from_geojson, Track.from_geojson, dIndex, hl]
  | str s => exact ⟨rfl, rfl, Or.inr rfl, by simp [Track.from_geojson, dIndex]⟩
  | int n => exact ⟨rfl, rfl, Or.inr rfl, by simp [Track.from_geojson, dIndex]⟩
  | dec d => exact ⟨rfl, rfl, Or.inr rfl, by simp [Track.from_geojson, dIndex]⟩
  | time t => exact ⟨rfl, rfl, Or.inr rfl, by simp [Track.from_geojson, dIndex]⟩
  | null => exact ⟨rfl, rfl, Or.inr rfl, by simp [Track.from_geojson, dIndex]⟩
  | list xs => exact ⟨rfl, rfl, Or.inr rfl, by simp [Track.from_geojson, dIndex]⟩

/-- C3 witness: the amended statement at the concrete non-mapping input
`[]` (a JSON array). -/
theorem C3_witness :
    isDictWithType (GVal.list []) = false
    ∧ (Waypoint.from_geojson (GVal.list []) = .error .invalidGeoJSON
      ∧ Route.from_geojson (GVal.list []) = .error .invalidGeoJSON
      ∧ (Track.from_geojson (GVal.list []) = .error .keyError
          ∨ Track.from_geojson (GVal.list []) = .error .typeError)
      ∧ Track.from_geojson (GVal.list []) ≠ .error .invalidGeoJSON) :=
  ⟨rfl, C3_invalid_document_rejection (GVal.list []) rfl⟩

/-- C4: every mapping whose `type` discriminator is `"Polygon"` makes
`Waypoint.from_geojson` raise the unsupported-geometry error — a kind
distinct from the format error (`ValueError`) and from the
invalid-document error. -/
theorem C4_polygon_unsupported (kvs : List (String × GVal))
    (h : dLookup kvs "type" = some (.str "Polygon")) :
    Waypoint.from_geojson (.obj kvs) = .error .unsupportedType
    ∧ Err.unsupportedType ≠ Err.valueError
    ∧ Err.unsupportedType ≠ Err.invalidGeoJSON := by
  refine ⟨?_, by decide, by decide⟩
  simp [Waypoint.from_geojson, h]

/-- C4 witness: a concrete `Polygon`-typed mapping. -/
theorem C4_witness :
    dLookup [("type", GVal.str "Polygon"), ("coordinates", GVal.list [])] "type"
        = some (.str "Polygon")
    ∧ (Waypoint.from_geojson (.obj [("type", GVal.str "Polygon"), ("coordinates", GVal.list [])])
          = .error .unsupportedType
      ∧ Err.unsupportedType ≠ Err.valueError
      ∧ Err.unsupportedType ≠ Err.invalidGeoJSON) :=
  ⟨rfl, C4_polygon_unsupported _ rfl⟩

/-! ## C6: the distance radius -/

/-- C6 counterexample: the default radius is the WGS-84 equatorial radius
`6_378_137` m, which differs from the mean Earth radius (≈ 6,371,009 m;
6,371,000 m in the common rounding) by more than 7 km — the default is
not the mean Earth radius. -/
theorem C6_counterexample_default_radius :
    Waypoint.defaultRadius = 6378137
    ∧ 7000 < |Waypoint.defaultRadius - 6371009|
    ∧ 7000 < |Waypoint.defaultRadius - 6371000| := by
  norm_num [Waypoint.defaultRadius]

/-- C6 (amended): `distance_to` takes a configurable radius whose default
is `6_378_137` m (the WGS-84 equatorial radius, not the mean Earth
radius), and the distance scales linearly in the configured radius. -/
theorem C6_configurable_radius :
    Waypoint.defaultRadius = 6378137
    ∧ ∀ (w v : Waypoint) (r : ℝ),
        Waypoint.distance_to w v r * (Waypoint.defaultRadius : ℝ)
          = Waypoint.distance_to_default w v * r := by
  refine ⟨rfl, fun w v r => ?_⟩
  simp only [Waypoint.distance_to, Waypoint.distance_to_default]
  ring

/-! ## C8: pooled average elevation -/

/-- C8: for a track with at least one elevation-bearing point,
`avg_elevation` is the sum of the elevations of all elevation-bearing
points pooled across all segments divided by the count of those points;
on the concrete two-segment track `trkEles` this differs both from the
mean of the per-segment averages and from the sum divided by the total
point count. -/
theorem C8_avg_elevation_pools (t : Track) (h : t.pooledEles ≠ []) :
    t.avg_elevation = t.pooledEles.sum / t.pooledEles.length
    ∧ trkEles.avg_elevation = 6
    ∧ trkEles.avg_elevation
        ≠ (trkEles.trksegs.map TrackSegment.avg_elevation).sum / trkEles.trksegs.length
    ∧ trkEles.avg_elevation ≠ trkEles.pooledEles.sum / trkEles.allPoints.length := by
  refine ⟨?_, ?_, ?_, ?_⟩
  · simp only [Track.avg_elevation, Track.pooledEles, Track.allPoints, elesOf,
      List.filterMap_flatten, List.map_map, List.sum_eq_foldl]
    rfl
  · norm_num [Track.avg_elevation, trkEles, elesOf, wpEle, wpBare, Waypoint.mkPos,
      List.filterMap_cons, List.flatten]
  · norm_num [Track.avg_elevation, TrackSegment.avg_elevation, trkEles, elesOf,
      wpEle, wpBare, Waypoint.mkPos, List.filterMap_cons, List.flatten]
  · norm_num [Track.avg_elevation, Track.pooledEles, Track.allPoints, trkEles, elesOf,
      wpEle, wpBare, Waypoint.mkPos, List.filterMap_cons, List.flatten]

/-- C8 witness: the pooled-average statement applied at the concrete
track `trkEles`. -/
theorem C8_witness :
    trkEles.pooledEles ≠ []
    ∧ trkEles.avg_elevation = trkEles.pooledEles.sum / trkEles.pooledEles.length :=
  ⟨by decide, (C8_avg_elevation_pools trkEles (by decide)).1⟩

/-! ## C2: the coordinatesProperties side channel of `TrackSegment` -/

/-- C2: for a segment in which at least one point carries non-geometric
fields (a non-empty property map), the feature conversion emits a
`coordinatesProperties` array with one entry per point — the i-th entry
being exactly the i-th point's property map, positionally aligned with
the i-th coordinate — whose number of non-empty maps is exactly the
number of points carrying non-geometric fields. -/
theorem C2_coordinates_properties (ts : TrackSegment) (bb : List ℚ)
    (hbb : ts.geojson_bounds = .ok bb)
    (hk : 0 < (ts.trkpts.filter fun p => !p.geojson_properties.isEmpty).length) :
    ts.to_geojson .feature = .ok (.obj
      [("type", .str "Feature"),
       ("geometry", .obj [("type", .str "LineString"),
          ("bbox", .list (bb.map fun q => .dec (.fin q))),
          ("coordinates", .list (ts.trkpts.map fun p => .list p.geojson_coordinates))]),
       ("properties", .obj [("coordinatesProperties",
          .list (ts.trkpts.map fun p => .obj p.geojson_properties))])])
    ∧ (ts.trkpts.map fun p => GVal.obj p.geojson_properties).length = ts.trkpts.length
    ∧ ((ts.trkpts.map fun p => p.geojson_properties).filter fun cp => !cp.isEmpty).length
        = (ts.trkpts.filter fun p => !p.geojson_properties.isEmpty).length
    ∧ ∀ i (hi : i < ts.trkpts.length),
        (ts.trkpts.map fun p => GVal.obj p.geojson_properties).get ⟨i, by simpa using hi⟩
          = .obj ((ts.trkpts.get ⟨i, hi⟩).geojson_properties) := by
  have hany : (ts.trkpts.map (fun p => p.geojson_properties)).any (fun cp => !cp.isEmpty)
      = true := by
    rw [List.any_eq_true]
    obtain ⟨p, hp⟩ := List.exists_mem_of_length_pos hk
    exact ⟨p.geojson_properties, List.mem_map_of_mem _ (List.mem_filter.mp hp).1,
      (List.mem_filter.mp hp).2⟩
  refine ⟨?_, List.length_map _ _, (List.filter_map _ _ ▸ List.length_map _ _ : _), ?_⟩
  · simp [TrackSegment.to_geojson, hbb, hany]
  · intro i hi
    simp [List.get_eq_getElem, List.getElem_map]



/-- C2 witness: the side-channel statement at the concrete two-point
segment `segNamed` (first point named, second bare). -/
theorem C2_witness :
    segNamed.geojson_bounds = .ok [0, 0, 0, 0]
    ∧ 0 < (segNamed.trkpts.filter fun p => !p.geojson_properties.isEmpty).length
    ∧ (segNamed.to_geojson .feature = .ok (.obj
        [("type", .str "Feature"),
         ("geometry", .obj [("type", .str "LineString"),
            ("bbox", .list ([0, 0, 0, 0].map fun q => .dec (.fin q))),
            ("coordinates", .list (segNamed.trkpts.map fun p => .list p.geojson_coordinates))]),
         ("properties", .obj [("coordinatesProperties",
            .list (segNamed.trkpts.map fun p => .obj p.geojson_properties))])])
      ∧ (segNamed.trkpts.map fun p => GVal.obj p.geojson_properties).length
          = segNamed.trkpts.length
      ∧ ((segNamed.trkpts.map fun p => p.geojson_properties).filter fun cp => !cp.isEmpty).length
          = (segNamed.trkpts.filter fun p => !p.geojson_properties.isEmpty).length
      ∧ ∀ i (hi : i < segNamed.trkpts.length),
          (segNamed.trkpts.map fun p => GVal.obj p.geojson_properties).get ⟨i, by simpa using hi⟩
            = .obj ((segNamed.trkpts.get ⟨i, hi⟩).geojson_properties)) :=
  ⟨rfl, by decide, C2_coordinates_properties segNamed [0, 0, 0, 0] rfl (by decide)⟩

/-! ## C7: the timestamp text encoding -/

/-- Digit characters are never `'+'`. -/
@[simp] theorem digitChar_ne_plus (n : ℕ) : digitChar n ≠ '+' := by
  unfold digitChar; split <;> decide

/-- Digit characters are never `'+'` (symmetric form). -/
@[simp] theorem plus_ne_digitChar (n : ℕ) : '+' ≠ digitChar n := by
  unfold digitChar; split <;> decide

/-- Digit characters are never `'.'`. -/
@[simp] theorem digitChar_ne_dot (n : ℕ) : digitChar n ≠ '.' := by
  unfold digitChar; split <;> decide

/-- Digit characters are never `'.'` (symmetric form). -/
@[simp] theorem dot_ne_digitChar (n : ℕ) : '.' ≠ digitChar n := by
  unfold digitChar; split <;> decide

/-- The isoformat body contains no `'+'` (its characters are digits and
the separators `-`, `T`, `:`, `.`). -/
theorem isobody_no_plus (dt : DTime) : ∀ c ∈ isobody dt, c ≠ '+' := by
  by_cases hm : dt.microsecond = 0 <;>
    simp [isobody, pad4, pad2, pad3, hm]

/-- Replacement leaves a character that is not `'+'` in place. -/
theorem replTZ_cons_ne (c : Char) (l : List Char) (h : c ≠ '+') :
    replTZ (c :: l) = c :: replTZ l := by
  rw [replTZ.eq_def]
  split
  · rename_i heq
    exact absurd heq (by simp)
  · rename_i rest heq
    injection heq with h1 h2
    exact absurd h1 h
  · rename_i hne heq
    injection heq with h1 h2
    subst h1; subst h2; rfl

/-- Replacing `+00:00` by `Z` at the end of a plus-free prefix. -/
theorem replTZ_append_plus (xs : List Char) (h : ∀ c ∈ xs, c ≠ '+') :
    replTZ (xs ++ '+' :: '0' :: '0' :: ':' :: '0' :: '0' :: []) = xs ++ ['Z'] := by
  induction xs with
  | nil => rfl
  | cons c l ih =>
    rw [List.cons_append, replTZ_cons_ne c _ (h c (List.mem_cons_self c l)),
      ih fun d hd => h d (List.mem_cons_of_mem c hd), List.cons_append]

/-- C7 counterexample: the encoding of a naive datetime (no `tzinfo`)
carries no `'Z'` suffix at all — `format_datetime` only rewrites an
explicit `+00:00` offset. -/
theorem C7_counterexample_naive_no_z :
    'Z' ∉ format_datetime ⟨2023, 1, 1, 12, 30, 45, 0, none⟩
    ∧ format_datetime ⟨2023, 1, 1, 12, 30, 45, 0, none⟩ = "2023-01-01T12:30:45".toList := by
  constructor <;> decide

/-- C7 (amended): for every datetime whose UTC offset is zero (an aware
UTC value; naive or non-UTC values keep their original suffix), the
encoding is the ISO-8601 body followed by `'Z'`, where the body carries a
fractional part exactly when the sub-second field is non-zero (length 23
with the three millisecond digits, 19 without). -/
theorem C7_utc_timestamp_encoding (dt : DTime) (h : dt.tz = some 0) :
    format_datetime dt = isobody dt ++ ['Z']
    ∧ ('.' ∈ isobody dt ↔ dt.microsecond ≠ 0)
    ∧ (isobody dt).length = (if dt.microsecond = 0 then 19 else 23) := by
  refine ⟨?_, ?_, ?_⟩
  · have hoff : offsetChars dt.tz = ['+', '0', '0', ':', '0', '0'] := by rw [h]; rfl
    rw [format_datetime, isoformat, hoff, replTZ_append_plus _ (isobody_no_plus dt)]
  · by_cases hm : dt.microsecond = 0 <;> simp [isobody, pad4, pad2, pad3, hm]
  · by_cases hm : dt.microsecond = 0 <;> simp [isobody, pad4, pad2, pad3, hm]



/-- C7 witness: the amended statement at the concrete UTC timestamp
`dtUTC`. -/
theorem C7_witness :
    dtUTC.tz = some 0
    ∧ (format_datetime dtUTC = isobody dtUTC ++ ['Z']
      ∧ ('.' ∈ isobody dtUTC ↔ dtUTC.microsecond ≠ 0)
      ∧ (isobody dtUTC).length = (if dtUTC.microsecond = 0 then 19 else 23)) :=
  ⟨rfl, C7_utc_timestamp_encoding dtUTC rfl⟩

/-! ## C5: haversine distance values -/

/-- C5: with the default radius, `distance_to` is zero from any waypoint
to itself, and from `(lat 0, lon 0)` to `(lat 0, lon 1)` it is within one
metre of 111,319.49 m. -/
theorem C5_distance_values :
    (∀ w : Waypoint, Waypoint.distance_to_default w w = 0)
    ∧ |Waypoint.distance_to_default wpBare wpLon1 - 111319.49| ≤ 1 := by
  constructor
  · intro w
    simp [Waypoint.distance_to_default, Waypoint.distance_to, Waypoint.centralAngle, atan2]
  · have hθpos : (0:ℝ) < Real.pi / 360 := by positivity
    have hθlt : Real.pi / 360 < Real.pi / 2 := by
      have := Real.pi_pos; linarith
    have hsin_nonneg : 0 ≤ Real.sin (Real.pi/360) :=
      Real.sin_nonneg_of_nonneg_of_le_pi hθpos.le (by linarith [Real.pi_pos])
    have hsin : Real.sqrt (Real.sin (Real.pi/360) * Real.sin (Real.pi/360))
        = Real.sin (Real.pi/360) :=
      Real.sqrt_mul_self hsin_nonneg
    have hcos_pos : 0 < Real.cos (Real.pi/360) :=
      Real.cos_pos_of_mem_Ioo ⟨by linarith [Real.pi_pos], hθlt⟩
    have hcos : Real.sqrt (1 - Real.sin (Real.pi/360) * Real.sin (Real.pi/360))
        = Real.cos (Real.pi/360) := by
      have h1 : 1 - Real.sin (Real.pi/360) * Real.sin (Real.pi/360)
          = Real.cos (Real.pi/360) * Real.cos (Real.pi/360) := by
        have := Real.sin_sq_add_cos_sq (Real.pi/360)
        nlinarith [this]
      rw [h1, Real.sqrt_mul_self hcos_pos.le]
    have hatan : atan2 (Real.sin (Real.pi/360)) (Real.cos (Real.pi/360)) = Real.pi/360 := by
      rw [atan2, if_pos hcos_pos, ← Real.tan_eq_sin_div_cos,
        Real.arctan_tan (by linarith) hθlt]
    have h360 : Real.pi / 180 / 2 = Real.pi / 360 := by ring
    have hval : Waypoint.distance_to_default wpBare wpLon1 = 6378137 * (Real.pi / 180) := by
      simp only [Waypoint.distance_to_default, Waypoint.distance_to, Waypoint.centralAngle,
        Waypoint.defaultRadius, wpBare, wpLon1, Waypoint.mkPos, lat0, lon0, lon1, radiansR]
      norm_num
      rw [h360, hsin, hcos, hatan]
      ring
    rw [hval, abs_le]
    constructor <;> nlinarith [Real.pi_gt_d6, Real.pi_lt_d6]

/-! ## C1 infrastructure: characterizing the filtered property dicts -/



/-- `optE` on a list value (never `None`). -/
theorem optE_list (k : String) (xs : List GVal) : optE k (.list xs) = [(k, .list xs)] := rfl

/-- One step of the `None`-filter over a property dict. -/
theorem filter_cons_entry (k : String) (v : GVal) (rest : List (String × GVal)) :
    List.filter (fun kv => !kv.2.isNull) ((k, v) :: rest)
      = optE k v ++ List.filter (fun kv => !kv.2.isNull) rest := by
  cases hv : v.isNull <;> simp [optE, hv, List.filter_cons]

/-- Looking up an `optE` entry under its own key. -/
theorem dLookup_optE_self (k : String) (v : GVal) (rest : List (String × GVal)) :
    dLookup (optE k v ++ rest) k = if v.isNull then dLookup rest k else some v := by
  cases hv : v.isNull <;> simp [optE, hv, dLookup]

/-- Lookups pass over `optE` entries with a different key. -/
theorem dLookup_optE_ne {k key : String} (h : k ≠ key) (v : GVal)
    (rest : List (String × GVal)) :
    dLookup (optE k v ++ rest) key = dLookup rest key := by
  cases hv : v.isNull <;> simp [optE, hv, dLookup, h]

/-- Lookups pass over the `links` entry when looking for another key. -/
theorem dLookup_linksE_ne {key : String} (h : "links" ≠ key) (ls : List Link)
    (rest : List (String × GVal)) :
    dLookup (linksE ls ++ rest) key = dLookup rest key := by
  cases ls <;> simp [linksE, dLookup, h]

/-- Looking the `links` entry up under its own key. -/
theorem dLookup_linksE_self (ls : List Link) (rest : List (String × GVal)) :
    dLookup (linksE ls ++ rest) "links"
      = if ls.isEmpty then dLookup rest "links" else some (.list (ls.map Link.to_dict)) := by
  cases ls <;> simp [linksE, dLookup]

/-- Removal passes over `optE` entries with a different key. -/
theorem dPop_optE_ne {k key : String} (h : k ≠ key) (v : GVal)
    (rest : List (String × GVal)) :
    dPop (optE k v ++ rest) key = optE k v ++ dPop rest key := by
  cases hv : v.isNull <;> simp [optE, hv, dPop, h]

/-- A serialized link is a non-empty dict, hence truthy. -/
@[simp] theorem to_dict_truthy (l : Link) : l.to_dict.truthy = true := by
  cases l
  simp [Link.to_dict, GVal.truthy]

/-- Serialized links are truthy dicts, so `any` over them detects exactly
non-emptiness of the link list. -/
theorem links_any (ls : List Link) :
    (ls.map Link.to_dict).any GVal.truthy = !ls.isEmpty := by
  cases ls with
  | nil => rfl
  | cons l rest => simp [Link.to_dict, GVal.truthy]

/-- The waypoint property dict, characterized entry-by-entry: each
optional field contributes its entry exactly when set, and `links`
contributes exactly when non-empty. -/
theorem wpt_props_eq (w : Waypoint) :
    w.geojson_properties
      = optE "time" (encT w.time) ++ optE "magvar" (encD w.magvar) ++
        optE "geoidheight" (encD w.geoidheight) ++ optE "name" (encS w.name) ++
        optE "cmt" (encS w.cmt) ++ optE "desc" (encS w.desc) ++ optE "src" (encS w.src) ++
        linksE w.links ++ optE "sym" (encS w.sym) ++ optE "type" (encS w.type) ++
        optE "fix" (encF w.fix) ++ optE "sat" (encI w.sat) ++ optE "hdop" (encD w.hdop) ++
        optE "vdop" (encD w.vdop) ++ optE "pdop" (encD w.pdop) ++
        optE "ageofdgpsdata" (encD w.ageofdgpsdata) ++ optE "dgpsid" (encN w.dgpsid) := by
  rw [Waypoint.geojson_properties, filter_geojson_properties]
  simp only [filter_cons_entry, List.filter_nil, List.append_nil, optE_list,
    List.append_assoc]
  rw [dLookup_optE_ne (by decide), dLookup_optE_ne (by decide), dLookup_optE_ne (by decide),
    dLookup_optE_ne (by decide), dLookup_optE_ne (by decide), dLookup_optE_ne (by decide),
    dLookup_optE_ne (by decide)]
  cases hls : w.links with
  | nil =>
    simp only [List.map_nil, dLookup, reduceIte, List.any_nil, Bool.false_eq_true,
      if_false, linksE]
    rw [dPop_optE_ne (by decide), dPop_optE_ne (by decide), dPop_optE_ne (by decide),
      dPop_optE_ne (by decide), dPop_optE_ne (by decide), dPop_optE_ne (by decide),
      dPop_optE_ne (by decide)]
    simp [dPop]
  | cons l rest =>
    rw [show ∀ (L : List GVal) (tail : List (String × GVal)),
          dLookup ([("links", GVal.list L)] ++ tail) "links" = some (.list L) from
        fun L tail => by simp [dLookup]]
    simp [links_any, linksE]

/-- Looking up a standalone `optE` entry under another key. -/
theorem dLookup_optE_ne0 {k key : String} (h : k ≠ key) (v : GVal) :
    dLookup (optE k v) key = none := by
  cases hv : v.isNull <;> simp [optE, hv, dLookup, h]

/-- Looking up a standalone `optE` entry under its own key. -/
theorem dLookup_optE_self0 (k : String) (v : GVal) :
    dLookup (optE k v) k = if v.isNull then none else some v := by
  cases hv : v.isNull <;> simp [optE, hv, dLookup]

/-- `time` lookup in the waypoint property dict. -/
theorem lookup_w_time (w : Waypoint) :
    dLookup w.geojson_properties "time" = w.time.map GVal.time := by
  rw [wpt_props_eq]
  cases w.time <;>
    simp [dLookup_optE_self, dLookup_optE_ne, dLookup_linksE_ne, dLookup_optE_ne0,
      dLookup_optE_self0, encT, encD, encS, encF, encI, encN, GVal.isNull]

/-- `magvar` lookup in the waypoint property dict. -/
theorem lookup_w_magvar (w : Waypoint) :
    dLookup w.geojson_properties "magvar" = w.magvar.map fun q => GVal.dec (.fin q) := by
  rw [wpt_props_eq]
  cases w.magvar <;>
    simp [dLookup_optE_self, dLookup_optE_ne, dLookup_linksE_ne, dLookup_optE_ne0,
      dLookup_optE_self0, encT, encD, encS, encF, encI, encN, GVal.isNull]

/-- `geoidheight` lookup in the waypoint property dict. -/
theorem lookup_w_geoidheight (w : Waypoint) :
    dLookup w.geojson_properties "geoidheight" = w.geoidheight.map fun q => GVal.dec (.fin q) := by
  rw [wpt_props_eq]
  cases w.geoidheight <;>
    simp [dLookup_optE_self, dLookup_optE_ne, dLookup_linksE_ne, dLookup_optE_ne0,
      dLookup_optE_self0, encT, encD, encS, encF, encI, encN, GVal.isNull]

/-- `name` lookup in the waypoint property dict. -/
theorem lookup_w_name (w : Waypoint) :
    dLookup w.geojson_properties "name" = w.name.map GVal.str := by
  rw [wpt_props_eq]
  cases w.name <;>
    simp [dLookup_optE_self, dLookup_optE_ne, dLookup_linksE_ne, dLookup_optE_ne0,
      dLookup_optE_self0, encT, encD, encS, encF, encI, encN, GVal.isNull]

/-- `cmt` lookup in the waypoint property dict. -/
theorem lookup_w_cmt (w : Waypoint) :
    dLookup w.geojson_properties "cmt" = w.cmt.map GVal.str := by
  rw [wpt_props_eq]
  cases w.cmt <;>
    simp [dLookup_optE_self, dLookup_optE_ne, dLookup_linksE_ne, dLookup_optE_ne0,
      dLookup_optE_self0, encT, encD, encS, encF, encI, encN, GVal.isNull]

/-- `desc` lookup in the waypoint property dict. -/
theorem lookup_w_desc (w : Waypoint) :
    dLookup w.geojson_properties "desc" = w.desc.map GVal.str := by
  rw [wpt_props_eq]
  cases w.desc <;>
    simp [dLookup_optE_self, dLookup_optE_ne, dLookup_linksE_ne, dLookup_optE_ne0,
      dLookup_optE_self0, encT, encD, encS, encF, encI, encN, GVal.isNull]

/-- `src` lookup in the waypoint property dict. -/
theorem lookup_w_src (w : Waypoint) :
    dLookup w.geojson_properties "src" = w.src.map GVal.str := by
  rw [wpt_props_eq]
  cases w.src <;>
    simp [dLookup_optE_self, dLookup_optE_ne, dLookup_linksE_ne, dLookup_optE_ne0,
      dLookup_optE_self0, encT, encD, encS, encF, encI, encN, GVal.isNull]

/-- `links` lookup in the waypoint property dict. -/
theorem lookup_w_links (w : Waypoint) :
    dLookup w.geojson_properties "links"
      = if w.links.isEmpty then none else some (.list (w.links.map Link.to_dict)) := by
  rw [wpt_props_eq]
  cases w.links with
  | nil => simp [linksE, dLookup_optE_ne, dLookup_optE_ne0]
  | cons l rest => simp [dLookup_optE_ne, dLookup_linksE_self]

/-- `sym` lookup in the waypoint property dict. -/
theorem lookup_w_sym (w : Waypoint) :
    dLookup w.geojson_properties "sym" = w.sym.map GVal.str := by
  rw [wpt_props_eq]
  cases w.sym <;>
    simp [dLookup_optE_self, dLookup_optE_ne, dLookup_linksE_ne, dLookup_optE_ne0,
      dLookup_optE_self0, encT, encD, encS, encF, encI, encN, GVal.isNull]

/-- `type` lookup in the waypoint property dict. -/
theorem lookup_w_type (w : Waypoint) :
    dLookup w.geojson_properties "type" = w.type.map GVal.str := by
  rw [wpt_props_eq]
  cases w.type <;>
    simp [dLookup_optE_self, dLookup_optE_ne, dLookup_linksE_ne, dLookup_optE_ne0,
      dLookup_optE_self0, encT, encD, encS, encF, encI, encN, GVal.isNull]

/-- `fix` lookup in the waypoint property dict. -/
theorem lookup_w_fix (w : Waypoint) :
    dLookup w.geojson_properties "fix" = w.fix.map fun f => GVal.str f.toStr := by
  rw [wpt_props_eq]
  cases w.fix <;>
    simp [dLookup_optE_self, dLookup_optE_ne, dLookup_linksE_ne, dLookup_optE_ne0,
      dLookup_optE_self0, encT, encD, encS, encF, encI, encN, GVal.isNull]

/-- `sat` lookup in the waypoint property dict. -/
theorem lookup_w_sat (w : Waypoint) :
    dLookup w.geojson_properties "sat" = w.sat.map GVal.int := by
  rw [wpt_props_eq]
  cases w.sat <;>
    simp [dLookup_optE_self, dLookup_optE_ne, dLookup_linksE_ne, dLookup_optE_ne0,
      dLookup_optE_self0, encT, encD, encS, encF, encI, encN, GVal.isNull]

/-- `hdop` lookup in the waypoint property dict. -/
theorem lookup_w_hdop (w : Waypoint) :
    dLookup w.geojson_properties "hdop" = w.hdop.map fun q => GVal.dec (.fin q) := by
  rw [wpt_props_eq]
  cases w.hdop <;>
    simp [dLookup_optE_self, dLookup_optE_ne, dLookup_linksE_ne, dLookup_optE_ne0,
      dLookup_optE_self0, encT, encD, encS, encF, encI, encN, GVal.isNull]

/-- `vdop` lookup in the waypoint property dict. -/
theorem lookup_w_vdop (w : Waypoint) :
    dLookup w.geojson_properties "vdop" = w.vdop.map fun q => GVal.dec (.fin q) := by
  rw [wpt_props_eq]
  cases w.vdop <;>
    simp [dLookup_optE_self, dLookup_optE_ne, dLookup_linksE_ne, dLookup_optE_ne0,
      dLookup_optE_self0, encT, encD, encS, encF, encI, encN, GVal.isNull]

/-- `pdop` lookup in the waypoint property dict. -/
theorem lookup_w_pdop (w : Waypoint) :
    dLookup w.geojson_properties "pdop" = w.pdop.map fun q => GVal.dec (.fin q) := by
  rw [wpt_props_eq]
  cases w.pdop <;>
    simp [dLookup_optE_self, dLookup_optE_ne, dLookup_linksE_ne, dLookup_optE_ne0,
      dLookup_optE_self0, encT, encD, encS, encF, encI, encN, GVal.isNull]

/-- `ageofdgpsdata` lookup in the waypoint property dict. -/
theorem lookup_w_age (w : Waypoint) :
    dLookup w.geojson_properties "ageofdgpsdata"
      = w.ageofdgpsdata.map fun q => GVal.dec (.fin q) := by
  rw [wpt_props_eq]
  cases w.ageofdgpsdata <;>
    simp [dLookup_optE_self, dLookup_optE_ne, dLookup_linksE_ne, dLookup_optE_ne0,
      dLookup_optE_self0, encT, encD, encS, encF, encI, encN, GVal.isNull]

/-- `dgpsid` lookup in the waypoint property dict. -/
theorem lookup_w_dgpsid (w : Waypoint) :
    dLookup w.geojson_properties "dgpsid" = w.dgpsid.map fun n => GVal.int n := by
  rw [wpt_props_eq]
  cases w.dgpsid <;>
    simp [dLookup_optE_self, dLookup_optE_ne, dLookup_linksE_ne, dLookup_optE_ne0,
      dLookup_optE_self0, encT, encD, encS, encF, encI, encN, GVal.isNull]

/-- A serialized link deserializes to itself. -/
theorem link_roundtrip (l : Link) : Link.from_dict l.to_dict = .ok l := by
  obtain ⟨href, text, mime⟩ := l
  cases text <;> cases mime <;> simp [Link.to_dict, Link.from_dict, dLookup]

/-- A serialized link list deserializes to itself (loop form of
`List.mapM` with an arbitrary accumulator). -/
theorem links_mapM_loop_rt (ls acc : List Link) :
    List.mapM.loop Link.from_dict (ls.map Link.to_dict) acc = .ok (acc.reverse ++ ls) := by
  induction ls generalizing acc with
  | nil =>
    simp only [List.map_nil, List.mapM.loop, List.append_nil]
    rfl
  | cons l rest ih => simp [List.mapM.loop, link_roundtrip, ih]

/-- The cons-exposed form of `links_mapM_loop_rt`. -/
theorem links_mapM_loop_cons (l : Link) (rest acc : List Link) :
    List.mapM.loop Link.from_dict (l.to_dict :: rest.map Link.to_dict) acc
      = .ok (acc.reverse ++ l :: rest) := by
  simp [List.mapM.loop, link_roundtrip, links_mapM_loop_rt]

/-- A serialized link list deserializes to itself. -/
theorem links_mapM_roundtrip (ls : List Link) :
    (ls.map Link.to_dict).mapM Link.from_dict = .ok ls := by
  rw [List.mapM]
  simpa using links_mapM_loop_rt ls []

/-- The `time` step on a timestampless waypoint's own dict is a no-op. -/
theorem stepTime_rt (w w' : Waypoint) (h : w.time = none) :
    stepTime w.geojson_properties w' = .ok w' := by
  simp [stepTime, lookup_w_time, h]

/-- The `magvar` step recovers the source waypoint's field. -/
theorem stepMagvar_rt (w w' : Waypoint) :
    stepMagvar w.geojson_properties w' = .ok { w' with magvar := w.magvar.or w'.magvar } := by
  cases hm : w.magvar <;> simp [stepMagvar, lookup_w_magvar, hm, asQ, Option.or]

/-- The `geoidheight` step recovers the source waypoint's field. -/
theorem stepGeoidheight_rt (w w' : Waypoint) :
    stepGeoidheight w.geojson_properties w'
      = .ok { w' with geoidheight := w.geoidheight.or w'.geoidheight } := by
  cases hm : w.geoidheight <;> simp [stepGeoidheight, lookup_w_geoidheight, hm, asQ, Option.or]

/-- The `name` step recovers the source waypoint's field. -/
theorem stepName_rt (w w' : Waypoint) :
    stepName w.geojson_properties w' = .ok { w' with name := w.name.or w'.name } := by
  cases hm : w.name <;> simp [stepName, lookup_w_name, hm, asStr, Option.or]

/-- The `cmt` step recovers the source waypoint's field. -/
theorem stepCmt_rt (w w' : Waypoint) :
    stepCmt w.geojson_properties w' = .ok { w' with cmt := w.cmt.or w'.cmt } := by
  cases hm : w.cmt <;> simp [stepCmt, lookup_w_cmt, hm, asStr, Option.or]

/-- The `desc` step recovers the source waypoint's field. -/
theorem stepDesc_rt (w w' : Waypoint) :
    stepDesc w.geojson_properties w' = .ok { w' with desc := w.desc.or w'.desc } := by
  cases hm : w.desc <;> simp [stepDesc, lookup_w_desc, hm, asStr, Option.or]

/-- The `src` step recovers the source waypoint's field. -/
theorem stepSrc_rt (w w' : Waypoint) :
    stepSrc w.geojson_properties w' = .ok { w' with src := w.src.or w'.src } := by
  cases hm : w.src <;> simp [stepSrc, lookup_w_src, hm, asStr, Option.or]

/-- The links step appends the source waypoint's deserialized links. -/
theorem stepLinks_rt (w w' : Waypoint) :
    stepLinks w.geojson_properties w' = .ok { w' with links := w'.links ++ w.links } := by
  cases hls : w.links with
  | nil => simp [stepLinks, lookup_w_links, hls]
  | cons l rest => simp [stepLinks, lookup_w_links, hls, links_mapM_loop_cons]

/-- The `sym` step recovers the source waypoint's field. -/
theorem stepSym_rt (w w' : Waypoint) :
    stepSym w.geojson_properties w' = .ok { w' with sym := w.sym.or w'.sym } := by
  cases hm : w.sym <;> simp [stepSym, lookup_w_sym, hm, asStr, Option.or]

/-- The `type` step recovers the source waypoint's field. -/
theorem stepType_rt (w w' : Waypoint) :
    stepType w.geojson_properties w' = .ok { w' with type := w.type.or w'.type } := by
  cases hm : w.type <;> simp [stepType, lookup_w_type, hm, asStr, Option.or]

/-- The `fix` step recovers the source waypoint's field (fix spellings
parse back to themselves). -/
theorem stepFix_rt (w w' : Waypoint) :
    stepFix w.geojson_properties w' = .ok { w' with fix := w.fix.or w'.fix } := by
  cases hm : w.fix with
  | none => simp [stepFix, lookup_w_fix, hm, Option.or]
  | some f =>
    cases f <;>
      simp [stepFix, lookup_w_fix, hm, asStr, Fix.toStr, Fix.ofStr, Option.or]

/-- The `sat` step recovers the source waypoint's field. -/
theorem stepSat_rt (w w' : Waypoint) :
    stepSat w.geojson_properties w' = .ok { w' with sat := w.sat.or w'.sat } := by
  cases hm : w.sat <;> simp [stepSat, lookup_w_sat, hm, asInt, Option.or]

/-- The `hdop` step recovers the source waypoint's field. -/
theorem stepHdop_rt (w w' : Waypoint) :
    stepHdop w.geojson_properties w' = .ok { w' with hdop := w.hdop.or w'.hdop } := by
  cases hm : w.hdop <;> simp [stepHdop, lookup_w_hdop, hm, asQ, Option.or]

/-- The `vdop` step recovers the source waypoint's field. -/
theorem stepVdop_rt (w w' : Waypoint) :
    stepVdop w.geojson_properties w' = .ok { w' with vdop := w.vdop.or w'.vdop } := by
  cases hm : w.vdop <;> simp [stepVdop, lookup_w_vdop, hm, asQ, Option.or]

/-- The `pdop` step recovers the source waypoint's field. -/
theorem stepPdop_rt (w w' : Waypoint) :
    stepPdop w.geojson_properties w' = .ok { w' with pdop := w.pdop.or w'.pdop } := by
  cases hm : w.pdop <;> simp [stepPdop, lookup_w_pdop, hm, asQ, Option.or]

/-- The `ageofdgpsdata` step recovers the source waypoint's field. -/
theorem stepAge_rt (w w' : Waypoint) :
    stepAge w.geojson_properties w'
      = .ok { w' with ageofdgpsdata := w.ageofdgpsdata.or w'.ageofdgpsdata } := by
  cases hm : w.ageofdgpsdata <;> simp [stepAge, lookup_w_age, hm, asQ, Option.or]

/-- The `dgpsid` step recovers the source waypoint's field. -/
theorem stepDgpsid_rt (w w' : Waypoint) :
    stepDgpsid w.geojson_properties w' = .ok { w' with dgpsid := w.dgpsid.or w'.dgpsid } := by
  cases hm : w.dgpsid with
  | none => simp [stepDgpsid, lookup_w_dgpsid, hm, Option.or]
  | some n =>
    simp [stepDgpsid, lookup_w_dgpsid, hm, asStation, Option.or,
      not_lt.mpr (Int.natCast_nonneg n)]

/-- Re-parsing a timestampless waypoint's own property dict on top of its
bare position reconstructs the waypoint. -/
theorem parse_props_rt (w : Waypoint) (ht : w.time = none) :
    Waypoint.geojson_parse_properties (Waypoint.mkPos w.lat w.lon w.ele)
      (.obj w.geojson_properties) = .ok w := by
  obtain ⟨lat, lon, ele, time, magvar, geoid, name, cmt, desc, src, links, sym, ty,
    fix, sat, hdop, vdop, pdop, age, dgpsid⟩ := w
  simp only at ht
  subst ht
  simp only [Waypoint.geojson_parse_properties, Waypoint.mkPos]
  rw [stepTime_rt _ _ rfl, okBind, stepMagvar_rt, okBind, stepGeoidheight_rt, okBind,
    stepName_rt, okBind, stepCmt_rt, okBind, stepDesc_rt, okBind, stepSrc_rt, okBind,
    stepLinks_rt, okBind, stepSym_rt, okBind, stepType_rt, okBind, stepFix_rt, okBind,
    stepSat_rt, okBind, stepHdop_rt, okBind, stepVdop_rt, okBind, stepPdop_rt, okBind,
    stepAge_rt, okBind, stepDgpsid_rt]
  simp only [Option.or_none, List.nil_append]

/-- Rebuilding a waypoint from its own coordinate array restores its
position (and nothing else). -/
theorem from_coords_rt (w : Waypoint) :
    Waypoint.geojson_from_coordinates w.geojson_coordinates
      = .ok (Waypoint.mkPos w.lat w.lon w.ele) := by
  have hlat : Latitude.make w.lat.val = .ok w.lat := by
    rw [Latitude.make, dif_pos w.lat.2]
    rfl
  have hlon : Longitude.make w.lon.val = .ok w.lon := by
    rw [Longitude.make, dif_pos w.lon.2]
    rfl
  cases he : w.ele <;>
    simp [Waypoint.geojson_coordinates, he, Waypoint.geojson_from_coordinates, asQ,
      hlat, hlon]

/-- The waypoint side of the amended round trip: the feature shape of a
waypoint with no timestamp and a non-empty property map converts back to
the original waypoint. -/
theorem wpt_roundtrip (w : Waypoint) (ht : w.time = none)
    (hp : w.geojson_properties ≠ []) :
    Waypoint.from_geojson (w.to_geojson .feature) = .ok w := by
  have hpe : w.geojson_properties.isEmpty = false := List.isEmpty_eq_false.mpr hp
  simp only [Waypoint.to_geojson, hpe, Bool.false_eq_true, if_false]
  simp only [Waypoint.from_geojson, dIndex, dLookup, String.reduceEq, reduceIte, okBind]
  rw [from_coords_rt, okBind]
  exact parse_props_rt w ht

/-- `mapM.loop` over pointwise-successful conversions succeeds. -/
theorem mapM_loop_ok {α β : Type} (f : α → Except Err β) {xs : List α} {ys : List β}
    (h : List.Forall₂ (fun x y => f x = .ok y) xs ys) :
    ∀ acc, List.mapM.loop f xs acc = .ok (acc.reverse ++ ys) := by
  induction h with
  | nil =>
    intro acc
    simp only [List.mapM.loop, List.append_nil]
    rfl
  | cons hxy hrest ih =>
    intro acc
    simp [List.mapM.loop, hxy, ih]

/-- `mapM` over pointwise-successful conversions succeeds. -/
theorem mapM_ok {α β : Type} (f : α → Except Err β) {xs : List α} {ys : List β}
    (h : List.Forall₂ (fun x y => f x = .ok y) xs ys) :
    xs.mapM f = .ok ys := by
  rw [List.mapM]
  simpa using mapM_loop_ok f h []

/-- Pointwise success along a mapped list, as a `Forall₂`. -/
theorem forall2_map_self {α β : Type} (g : α → β) (f : β → Except Err α) (pts : List α)
    (h : ∀ p ∈ pts, f (g p) = .ok p) :
    List.Forall₂ (fun x y => f x = .ok y) (pts.map g) pts := by
  induction pts with
  | nil => exact .nil
  | cons p rest ih =>
    exact .cons (h p (List.mem_cons_self p rest))
      (ih fun q hq => h q (List.mem_cons_of_mem p hq))

/-- An `optE` entry vanishes only on a `None` value. -/
theorem encT_nil {k : String} {o : Option DTime} (h : optE k (encT o) = []) : o = none := by
  cases o with
  | none => rfl
  | some t => simp [optE, encT, GVal.isNull] at h

/-- An `optE` entry over a decimal field vanishes only when absent. -/
theorem encD_nil {k : String} {o : Option ℚ} (h : optE k (encD o) = []) : o = none := by
  cases o with
  | none => rfl
  | some q => simp [optE, encD, GVal.isNull] at h

/-- An `optE` entry over a string field vanishes only when absent. -/
theorem encS_nil {k : String} {o : Option String} (h : optE k (encS o) = []) : o = none := by
  cases o with
  | none => rfl
  | some s => simp [optE, encS, GVal.isNull] at h

/-- An `optE` entry over an int field vanishes only when absent. -/
theorem encI_nil {k : String} {o : Option ℤ} (h : optE k (encI o) = []) : o = none := by
  cases o with
  | none => rfl
  | some n => simp [optE, encI, GVal.isNull] at h

/-- An `optE` entry over a fix field vanishes only when absent. -/
theorem encF_nil {k : String} {o : Option Fix} (h : optE k (encF o) = []) : o = none := by
  cases o with
  | none => rfl
  | some f => simp [optE, encF, GVal.isNull] at h

/-- An `optE` entry over a station field vanishes only when absent. -/
theorem encN_nil {k : String} {o : Option ℕ} (h : optE k (encN o) = []) : o = none := by
  cases o with
  | none => rfl
  | some n => simp [optE, encN, GVal.isNull] at h

/-- The `links` entry vanishes only on an empty link list. -/
theorem linksE_nil {ls : List Link} (h : linksE ls = []) : ls = [] := by
  cases ls with
  | nil => rfl
  | cons l rest => simp [linksE] at h

/-- A waypoint with an empty property map has only its position set. -/
theorem props_empty_fields (p : Waypoint) (h : p.geojson_properties = []) :
    p = Waypoint.mkPos p.lat p.lon p.ele := by
  obtain ⟨lat, lon, ele, time, magvar, geoid, name, cmt, desc, src, links, sym, ty,
    fix, sat, hdop, vdop, pdop, age, dgpsid⟩ := p
  rw [wpt_props_eq] at h
  obtain ⟨h, h17⟩ := List.append_eq_nil.mp h
  obtain ⟨h, h16⟩ := List.append_eq_nil.mp h
  obtain ⟨h, h15⟩ := List.append_eq_nil.mp h
  obtain ⟨h, h14⟩ := List.append_eq_nil.mp h
  obtain ⟨h, h13⟩ := List.append_eq_nil.mp h
  obtain ⟨h, h12⟩ := List.append_eq_nil.mp h
  obtain ⟨h, h11⟩ := List.append_eq_nil.mp h
  obtain ⟨h, h10⟩ := List.append_eq_nil.mp h
  obtain ⟨h, h9⟩ := List.append_eq_nil.mp h
  obtain ⟨h, h8⟩ := List.append_eq_nil.mp h
  obtain ⟨h, h7⟩ := List.append_eq_nil.mp h
  obtain ⟨h, h6⟩ := List.append_eq_nil.mp h
  obtain ⟨h, h5⟩ := List.append_eq_nil.mp h
  obtain ⟨h, h4⟩ := List.append_eq_nil.mp h
  obtain ⟨h, h3⟩ := List.append_eq_nil.mp h
  obtain ⟨h1, h2⟩ := List.append_eq_nil.mp h
  simp only at h1 h2 h3 h4 h5 h6 h7 h8 h9 h10 h11 h12 h13 h14 h15 h16 h17
  rw [Waypoint.mkPos]
  simp only [encT_nil h1, encD_nil h2, encD_nil h3, encS_nil h4, encS_nil h5, encS_nil h6,
    encS_nil h7, linksE_nil h8, encS_nil h9, encS_nil h10, encF_nil h11, encI_nil h12,
    encD_nil h13, encD_nil h14, encD_nil h15, encD_nil h16, encN_nil h17]

/-- A waypoint with an empty property map (hence no timestamp) rebuilds
from its coordinates alone. -/
theorem parseCoordEntry_rt (p : Waypoint) (h : p.geojson_properties = []) :
    parseCoordEntry (.list p.geojson_coordinates) = .ok p := by
  rw [parseCoordEntry, from_coords_rt, ← props_empty_fields p h]

/-- A point's coordinates-plus-properties pair rebuilds the point (the
body of the `coordinatesProperties` zip loops). -/
theorem point_core_rt (p : Waypoint) (ht : p.time = none) :
    (do
      let w ← parseCoordEntry (.list p.geojson_coordinates)
      w.geojson_parse_properties (.obj p.geojson_properties)) = .ok p := by
  rw [parseCoordEntry, from_coords_rt, okBind, parse_props_rt p ht]

/-- The filtered 7-field property dict of `Route.to_geojson` and
`Track.to_geojson`, characterized entry-by-entry. -/
theorem filter7_eq (n c d s : Option String) (ls : List Link) (nm : Option ℤ)
    (ty : Option String) :
    filter_geojson_properties
      [("name", encS n), ("cmt", encS c), ("desc", encS d), ("src", encS s),
       ("links", .list (ls.map Link.to_dict)), ("number", encI nm), ("type", encS ty)]
      = optE "name" (encS n) ++ optE "cmt" (encS c) ++ optE "desc" (encS d) ++
        optE "src" (encS s) ++ linksE ls ++ optE "number" (encI nm) ++
        optE "type" (encS ty) := by
  rw [filter_geojson_properties]
  simp only [filter_cons_entry, List.filter_nil, List.append_nil, optE_list,
    List.append_assoc]
  rw [dLookup_optE_ne (by decide), dLookup_optE_ne (by decide), dLookup_optE_ne (by decide),
    dLookup_optE_ne (by decide)]
  cases hls : ls with
  | nil =>
    simp only [List.map_nil, dLookup, reduceIte, List.any_nil, Bool.false_eq_true,
      if_false, linksE]
    rw [dPop_optE_ne (by decide), dPop_optE_ne (by decide), dPop_optE_ne (by decide),
      dPop_optE_ne (by decide)]
    simp [dPop]
  | cons l rest =>
    rw [show ∀ (L : List GVal) (tail : List (String × GVal)),
          dLookup ([("links", GVal.list L)] ++ tail) "links" = some (.list L) from
        fun L tail => by simp [dLookup]]
    simp [links_any, linksE]

/-- Non-empty point lists have computable bounds. -/
theorem bounds_ok_cons (p : Waypoint) (rest : List Waypoint) :
    ∃ bb, pointsGeojsonBounds (p :: rest) = .ok bb := by
  cases he : elesOf (p :: rest) <;>
    · simp only [pointsGeojsonBounds, minListQ, maxListQ, List.map_cons, he, okBind]
      exact ⟨_, rfl⟩

/-- `name` lookup in the 7-field line properties followed by a tail. -/
theorem lookup7_name (n c d s : Option String) (ls : List Link) (nm : Option ℤ)
    (ty : Option String) (rest : List (String × GVal))
    (hrest : dLookup rest "name" = none) :
    dLookup (optE "name" (encS n) ++ optE "cmt" (encS c) ++ optE "desc" (encS d) ++
      optE "src" (encS s) ++ linksE ls ++ optE "number" (encI nm) ++
      optE "type" (encS ty) ++ rest) "name" = n.map GVal.str := by
  cases n <;>
    simp [List.append_assoc, dLookup_optE_self, dLookup_optE_ne, dLookup_linksE_ne,
      hrest, encS, encI, GVal.isNull]

/-- `cmt` lookup in the 7-field line properties followed by a tail. -/
theorem lookup7_cmt (n c d s : Option String) (ls : List Link) (nm : Option ℤ)
    (ty : Option String) (rest : List (String × GVal))
    (hrest : dLookup rest "cmt" = none) :
    dLookup (optE "name" (encS n) ++ optE "cmt" (encS c) ++ optE "desc" (encS d) ++
      optE "src" (encS s) ++ linksE ls ++ optE "number" (encI nm) ++
      optE "type" (encS ty) ++ rest) "cmt" = c.map GVal.str := by
  cases c <;>
    simp [List.append_assoc, dLookup_optE_self, dLookup_optE_ne, dLookup_linksE_ne,
      hrest, encS, encI, GVal.isNull]

/-- `desc` lookup in the 7-field line properties followed by a tail. -/
theorem lookup7_desc (n c d s : Option String) (ls : List Link) (nm : Option ℤ)
    (ty : Option String) (rest : List (String × GVal))
    (hrest : dLookup rest "desc" = none) :
    dLookup (optE "name" (encS n) ++ optE "cmt" (encS c) ++ optE "desc" (encS d) ++
      optE "src" (encS s) ++ linksE ls ++ optE "number" (encI nm) ++
      optE "type" (encS ty) ++ rest) "desc" = d.map GVal.str := by
  cases d <;>
    simp [List.append_assoc, dLookup_optE_self, dLookup_optE_ne, dLookup_linksE_ne,
      hrest, encS, encI, GVal.isNull]

/-- `src` lookup in the 7-field line properties followed by a tail. -/
theorem lookup7_src (n c d s : Option String) (ls : List Link) (nm : Option ℤ)
    (ty : Option String) (rest : List (String × GVal))
    (hrest : dLookup rest "src" = none) :
    dLookup (optE "name" (encS n) ++ optE "cmt" (encS c) ++ optE "desc" (encS d) ++
      optE "src" (encS s) ++ linksE ls ++ optE "number" (encI nm) ++
      optE "type" (encS ty) ++ rest) "src" = s.map GVal.str := by
  cases s <;>
    simp [List.append_assoc, dLookup_optE_self, dLookup_optE_ne, dLookup_linksE_ne,
      hrest, encS, encI, GVal.isNull]

/-- `links` lookup in the 7-field line properties followed by a tail. -/
theorem lookup7_links (n c d s : Option String) (ls : List Link) (nm : Option ℤ)
    (ty : Option String) (rest : List (String × GVal))
    (hrest : dLookup rest "links" = none) :
    dLookup (optE "name" (encS n) ++ optE "cmt" (encS c) ++ optE "desc" (encS d) ++
      optE "src" (encS s) ++ linksE ls ++ optE "number" (encI nm) ++
      optE "type" (encS ty) ++ rest) "links"
      = if ls.isEmpty then none else some (.list (ls.map Link.to_dict)) := by
  cases ls with
  | nil =>
    simp [List.append_assoc, linksE, dLookup_optE_ne, hrest]
  | cons l lrest =>
    simp [List.append_assoc, dLookup_optE_ne, dLookup_linksE_self]

/-- `number` lookup in the 7-field line properties followed by a tail. -/
theorem lookup7_number (n c d s : Option String) (ls : List Link) (nm : Option ℤ)
    (ty : Option String) (rest : List (String × GVal))
    (hrest : dLookup rest "number" = none) :
    dLookup (optE "name" (encS n) ++ optE "cmt" (encS c) ++ optE "desc" (encS d) ++
      optE "src" (encS s) ++ linksE ls ++ optE "number" (encI nm) ++
      optE "type" (encS ty) ++ rest) "number" = nm.map GVal.int := by
  cases nm <;>
    simp [List.append_assoc, dLookup_optE_self, dLookup_optE_ne, dLookup_linksE_ne,
      hrest, encS, encI, GVal.isNull]

/-- `type` lookup in the 7-field line properties followed by a tail. -/
theorem lookup7_type (n c d s : Option String) (ls : List Link) (nm : Option ℤ)
    (ty : Option String) (rest : List (String × GVal))
    (hrest : dLookup rest "type" = none) :
    dLookup (optE "name" (encS n) ++ optE "cmt" (encS c) ++ optE "desc" (encS d) ++
      optE "src" (encS s) ++ linksE ls ++ optE "number" (encI nm) ++
      optE "type" (encS ty) ++ rest) "type" = ty.map GVal.str := by
  cases ty <;>
    simp [List.append_assoc, dLookup_optE_self, dLookup_optE_ne, dLookup_linksE_ne,
      hrest, encS, encI, GVal.isNull]

/-- Lookups of another key pass over a standalone `links` entry. -/
theorem dLookup_linksE_ne0 {key : String} (h : "links" ≠ key) (ls : List Link) :
    dLookup (linksE ls) key = none := by
  cases ls <;> simp [linksE, dLookup, h]

/-- `coordinatesProperties` is not a key of the 7-field line properties;
its lookup falls through to the tail. -/
theorem lookup7_cp (n c d s : Option String) (ls : List Link) (nm : Option ℤ)
    (ty : Option String) (rest : List (String × GVal)) :
    dLookup (optE "name" (encS n) ++ optE "cmt" (encS c) ++ optE "desc" (encS d) ++
      optE "src" (encS s) ++ linksE ls ++ optE "number" (encI nm) ++
      optE "type" (encS ty) ++ rest) "coordinatesProperties"
      = dLookup rest "coordinatesProperties" := by
  simp [List.append_assoc, dLookup_optE_ne, dLookup_linksE_ne]

/-- The `name` block over the characterized properties. -/
theorem rStepName_rt (r' : Route) (n c d s : Option String) (ls : List Link)
    (nm : Option ℤ) (ty : Option String) (rest : List (String × GVal))
    (hrest : dLookup rest "name" = none) :
    rStepName (optE "name" (encS n) ++ optE "cmt" (encS c) ++ optE "desc" (encS d) ++
      optE "src" (encS s) ++ linksE ls ++ optE "number" (encI nm) ++
      optE "type" (encS ty) ++ rest) r' = .ok { r' with name := n.or r'.name } := by
  have hl := lookup7_name n c d s ls nm ty rest hrest
  simp only [List.append_assoc] at hl
  cases n <;> simp [rStepName, hl, asStr, Option.or]

/-- The `cmt` block over the characterized properties. -/
theorem rStepCmt_rt (r' : Route) (n c d s : Option String) (ls : List Link)
    (nm : Option ℤ) (ty : Option String) (rest : List (String × GVal))
    (hrest : dLookup rest "cmt" = none) :
    rStepCmt (optE "name" (encS n) ++ optE "cmt" (encS c) ++ optE "desc" (encS d) ++
      optE "src" (encS s) ++ linksE ls ++ optE "number" (encI nm) ++
      optE "type" (encS ty) ++ rest) r' = .ok { r' with cmt := c.or r'.cmt } := by
  have hl := lookup7_cmt n c d s ls nm ty rest hrest
  simp only [List.append_assoc] at hl
  cases c <;> simp [rStepCmt, hl, asStr, Option.or]

/-- The `desc` block over the characterized properties. -/
theorem rStepDesc_rt (r' : Route) (n c d s : Option String) (ls : List Link)
    (nm : Option ℤ) (ty : Option String) (rest : List (String × GVal))
    (hrest : dLookup rest "desc" = none) :
    rStepDesc (optE "name" (encS n) ++ optE "cmt" (encS c) ++ optE "desc" (encS d) ++
      optE "src" (encS s) ++ linksE ls ++ optE "number" (encI nm) ++
      optE "type" (encS ty) ++ rest) r' = .ok { r' with desc := d.or r'.desc } := by
  have hl := lookup7_desc n c d s ls nm ty rest hrest
  simp only [List.append_assoc] at hl
  cases d <;> simp [rStepDesc, hl, asStr, Option.or]

/-- The `src` block over the characterized properties. -/
theorem rStepSrc_rt (r' : Route) (n c d s : Option String) (ls : List Link)
    (nm : Option ℤ) (ty : Option String) (rest : List (String × GVal))
    (hrest : dLookup rest "src" = none) :
    rStepSrc (optE "name" (encS n) ++ optE "cmt" (encS c) ++ optE "desc" (encS d) ++
      optE "src" (encS s) ++ linksE ls ++ optE "number" (encI nm) ++
      optE "type" (encS ty) ++ rest) r' = .ok { r' with src := s.or r'.src } := by
  have hl := lookup7_src n c d s ls nm ty rest hrest
  simp only [List.append_assoc] at hl
  cases s <;> simp [rStepSrc, hl, asStr, Option.or]

/-- The links block over the characterized properties. -/
theorem rStepLinks_rt (r' : Route) (n c d s : Option String) (ls : List Link)
    (nm : Option ℤ) (ty : Option String) (rest : List (String × GVal))
    (hrest : dLookup rest "links" = none) :
    rStepLinks (optE "name" (encS n) ++ optE "cmt" (encS c) ++ optE "desc" (encS d) ++
      optE "src" (encS s) ++ linksE ls ++ optE "number" (encI nm) ++
      optE "type" (encS ty) ++ rest) r' = .ok { r' with links := r'.links ++ ls } := by
  have hl := lookup7_links n c d s ls nm ty rest hrest
  simp only [List.append_assoc] at hl
  cases ls with
  | nil => simp [rStepLinks, hl]
  | cons l lrest => simp [rStepLinks, hl, links_mapM_loop_cons]

/-- The `number` block over the characterized properties. -/
theorem rStepNumber_rt (r' : Route) (n c d s : Option String) (ls : List Link)
    (nm : Option ℤ) (ty : Option String) (rest : List (String × GVal))
    (hrest : dLookup rest "number" = none) :
    rStepNumber (optE "name" (encS n) ++ optE "cmt" (encS c) ++ optE "desc" (encS d) ++
      optE "src" (encS s) ++ linksE ls ++ optE "number" (encI nm) ++
      optE "type" (encS ty) ++ rest) r' = .ok { r' with number := nm.or r'.number } := by
  have hl := lookup7_number n c d s ls nm ty rest hrest
  simp only [List.append_assoc] at hl
  cases nm <;> simp [rStepNumber, hl, asInt, Option.or]

/-- The `type` block over the characterized properties. -/
theorem rStepType_rt (r' : Route) (n c d s : Option String) (ls : List Link)
    (nm : Option ℤ) (ty : Option String) (rest : List (String × GVal))
    (hrest : dLookup rest "type" = none) :
    rStepType (optE "name" (encS n) ++ optE "cmt" (encS c) ++ optE "desc" (encS d) ++
      optE "src" (encS s) ++ linksE ls ++ optE "number" (encI nm) ++
      optE "type" (encS ty) ++ rest) r' = .ok { r' with type := ty.or r'.type } := by
  have hl := lookup7_type n c d s ls nm ty rest hrest
  simp only [List.append_assoc] at hl
  cases ty <;> simp [rStepType, hl, asStr, Option.or]

/-- The whole route property section over the characterized properties. -/
theorem route_parseProps_rt (r0 : Route) (n c d s : Option String) (ls : List Link)
    (nm : Option ℤ) (ty : Option String) (rest : List (String × GVal))
    (h1 : dLookup rest "name" = none) (h2 : dLookup rest "cmt" = none)
    (h3 : dLookup rest "desc" = none) (h4 : dLookup rest "src" = none)
    (h5 : dLookup rest "links" = none) (h6 : dLookup rest "number" = none)
    (h7 : dLookup rest "type" = none) :
    Route.parseProps (optE "name" (encS n) ++ optE "cmt" (encS c) ++ optE "desc" (encS d) ++
      optE "src" (encS s) ++ linksE ls ++ optE "number" (encI nm) ++
      optE "type" (encS ty) ++ rest) r0
      = .ok { r0 with
                name := n.or r0.name, cmt := c.or r0.cmt, desc := d.or r0.desc,
                src := s.or r0.src, links := r0.links ++ ls, number := nm.or r0.number,
                type := ty.or r0.type } := by
  rw [Route.parseProps, rStepName_rt _ _ _ _ _ _ _ _ _ h1, okBind,
    rStepCmt_rt _ _ _ _ _ _ _ _ _ h2, okBind, rStepDesc_rt _ _ _ _ _ _ _ _ _ h3, okBind,
    rStepSrc_rt _ _ _ _ _ _ _ _ _ h4, okBind, rStepLinks_rt _ _ _ _ _ _ _ _ _ h5, okBind,
    rStepNumber_rt _ _ _ _ _ _ _ _ _ h6, okBind, rStepType_rt _ _ _ _ _ _ _ _ _ h7]

/-- The route side of the amended round trip: the feature shape of a
non-empty route whose points carry no timestamps and whose feature
property map is non-empty converts back to the original route. -/
theorem route_roundtrip (r : Route) (hpts : r.rtepts ≠ [])
    (ht : ∀ p ∈ r.rtepts, p.time = none)
    (hne : (optE "name" (encS r.name) ++ optE "cmt" (encS r.cmt) ++
        optE "desc" (encS r.desc) ++ optE "src" (encS r.src) ++ linksE r.links ++
        optE "number" (encI r.number) ++ optE "type" (encS r.type)) ≠ []
      ∨ (r.rtepts.map fun p => p.geojson_properties).any (fun cp => !cp.isEmpty) = true) :
    r.to_geojson .feature >>= Route.from_geojson = .ok r := by
  obtain ⟨bb, hbb⟩ : ∃ bb, r.geojson_bounds = .ok bb := by
    rw [Route.geojson_bounds]
    cases hl : r.rtepts with
    | nil => exact absurd hl hpts
    | cons p ptsrest => exact bounds_ok_cons p ptsrest
  simp only [Route.to_geojson, hbb, okBind, filter7_eq]
  by_cases hflag :
      (r.rtepts.map fun p => p.geojson_properties).any (fun cp => !cp.isEmpty) = true
  · rw [if_pos hflag]
    have hpe : ((optE "name" (encS r.name) ++ optE "cmt" (encS r.cmt) ++
        optE "desc" (encS r.desc) ++ optE "src" (encS r.src) ++ linksE r.links ++
        optE "number" (encI r.number) ++ optE "type" (encS r.type)) ++
        [("coordinatesProperties",
          GVal.list ((r.rtepts.map fun p => p.geojson_properties).map fun cp =>
            GVal.obj cp))]).isEmpty = false := by
      simp [List.isEmpty_eq_false]
    rw [hpe]
    simp only [Bool.false_eq_true, if_false, okBind]
    simp only [Route.from_geojson, dIndex, dLookup, String.reduceEq, reduceIte, okBind]
    rw [lookup7_cp]
    simp only [dLookup, String.reduceEq, reduceIte, okBind, List.map_map,
      Function.comp_def]
    rw [show (r.rtepts.map fun p => GVal.list p.geojson_coordinates).zip
          (r.rtepts.map fun p => GVal.obj p.geojson_properties)
        = r.rtepts.map fun p =>
            (GVal.list p.geojson_coordinates, GVal.obj p.geojson_properties) from
      List.zip_map' _ _ _]
    rw [mapM_ok _ (forall2_map_self _ _ _ fun p hp => point_core_rt p (ht p hp)), okBind]
    rw [route_parseProps_rt _ r.name r.cmt r.desc r.src r.links r.number r.type
      [("coordinatesProperties",
        GVal.list (List.map (fun x => GVal.obj x.geojson_properties) r.rtepts))]
      (by simp [dLookup]) (by simp [dLookup]) (by simp [dLookup]) (by simp [dLookup])
      (by simp [dLookup]) (by simp [dLookup]) (by simp [dLookup])]
    simp [Option.or_none, Route.empty]
  · rw [if_neg hflag]
    have hchain := hne.resolve_right hflag
    have hpe : (optE "name" (encS r.name) ++ optE "cmt" (encS r.cmt) ++
        optE "desc" (encS r.desc) ++ optE "src" (encS r.src) ++ linksE r.links ++
        optE "number" (encI r.number) ++ optE "type" (encS r.type)).isEmpty = false :=
      List.isEmpty_eq_false.mpr hchain
    rw [hpe]
    simp only [Bool.false_eq_true, if_false, okBind]
    have hall : ∀ p ∈ r.rtepts, p.geojson_properties = [] := by
      intro p hp
      by_contra hne2
      exact hflag (List.any_eq_true.mpr ⟨p.geojson_properties,
        List.mem_map_of_mem _ hp, by simpa [List.isEmpty_eq_false] using hne2⟩)
    simp only [Route.from_geojson, dIndex, dLookup, String.reduceEq, reduceIte, okBind]
    rw [show (optE "name" (encS r.name) ++ optE "cmt" (encS r.cmt) ++
        optE "desc" (encS r.desc) ++ optE "src" (encS r.src) ++ linksE r.links ++
        optE "number" (encI r.number) ++ optE "type" (encS r.type))
      = (optE "name" (encS r.name) ++ optE "cmt" (encS r.cmt) ++
        optE "desc" (encS r.desc) ++ optE "src" (encS r.src) ++ linksE r.links ++
        optE "number" (encI r.number) ++ optE "type" (encS r.type)) ++ [] from
      (List.append_nil _).symm]
    rw [lookup7_cp]
    simp only [dLookup, okBind]
    rw [mapM_ok _ (forall2_map_self _ _ _ fun p hp => parseCoordEntry_rt p (hall p hp)),
      okBind]
    rw [route_parseProps_rt _ r.name r.cmt r.desc r.src r.links r.number r.type []
      rfl rfl rfl rfl rfl rfl rfl]
    simp [Option.or_none, Route.empty]

/-- The `name` block of the track property section. -/
theorem tStepName_rt (t' : Track) (n c d s : Option String) (ls : List Link)
    (nm : Option ℤ) (ty : Option String) (rest : List (String × GVal))
    (hrest : dLookup rest "name" = none) :
    tStepName (optE "name" (encS n) ++ optE "cmt" (encS c) ++ optE "desc" (encS d) ++
      optE "src" (encS s) ++ linksE ls ++ optE "number" (encI nm) ++
      optE "type" (encS ty) ++ rest) t' = .ok { t' with name := n.or t'.name } := by
  have hl := lookup7_name n c d s ls nm ty rest hrest
  simp only [List.append_assoc] at hl
  cases n <;> simp [tStepName, hl, asStr, Option.or]

/-- The `cmt` block of the track property section. -/
theorem tStepCmt_rt (t' : Track) (n c d s : Option String) (ls : List Link)
    (nm : Option ℤ) (ty : Option String) (rest : List (String × GVal))
    (hrest : dLookup rest "cmt" = none) :
    tStepCmt (optE "name" (encS n) ++ optE "cmt" (encS c) ++ optE "desc" (encS d) ++
      optE "src" (encS s) ++ linksE ls ++ optE "number" (encI nm) ++
      optE "type" (encS ty) ++ rest) t' = .ok { t' with cmt := c.or t'.cmt } := by
  have hl := lookup7_cmt n c d s ls nm ty rest hrest
  simp only [List.append_assoc] at hl
  cases c <;> simp [tStepCmt, hl, asStr, Option.or]

/-- The `desc` block of the track property section. -/
theorem tStepDesc_rt (t' : Track) (n c d s : Option String) (ls : List Link)
    (nm : Option ℤ) (ty : Option String) (rest : List (String × GVal))
    (hrest : dLookup rest "desc" = none) :
    tStepDesc (optE "name" (encS n) ++ optE "cmt" (encS c) ++ optE "desc" (encS d) ++
      optE "src" (encS s) ++ linksE ls ++ optE "number" (encI nm) ++
      optE "type" (encS ty) ++ rest) t' = .ok { t' with desc := d.or t'.desc } := by
  have hl := lookup7_desc n c d s ls nm ty rest hrest
  simp only [List.append_assoc] at hl
  cases d <;> simp [tStepDesc, hl, asStr, Option.or]

/-- The `src` block of the track property section. -/
theorem tStepSrc_rt (t' : Track) (n c d s : Option String) (ls : List Link)
    (nm : Option ℤ) (ty : Option String) (rest : List (String × GVal))
    (hrest : dLookup rest "src" = none) :
    tStepSrc (optE "name" (encS n) ++ optE "cmt" (encS c) ++ optE "desc" (encS d) ++
      optE "src" (encS s) ++ linksE ls ++ optE "number" (encI nm) ++
      optE "type" (encS ty) ++ rest) t' = .ok { t' with src := s.or t'.src } := by
  have hl := lookup7_src n c d s ls nm ty rest hrest
  simp only [List.append_assoc] at hl
  cases s <;> simp [tStepSrc, hl, asStr, Option.or]

/-- The links block of the track property section. -/
theorem tStepLinks_rt (t' : Track) (n c d s : Option String) (ls : List Link)
    (nm : Option ℤ) (ty : Option String) (rest : List (String × GVal))
    (hrest : dLookup rest "links" = none) :
    tStepLinks (optE "name" (encS n) ++ optE "cmt" (encS c) ++ optE "desc" (encS d) ++
      optE "src" (encS s) ++ linksE ls ++ optE "number" (encI nm) ++
      optE "type" (encS ty) ++ rest) t' = .ok { t' with links := t'.links ++ ls } := by
  have hl := lookup7_links n c d s ls nm ty rest hrest
  simp only [List.append_assoc] at hl
  cases ls with
  | nil => simp [tStepLinks, hl]
  | cons l lrest => simp [tStepLinks, hl, links_mapM_loop_cons]

/-- The `number` block of the track property section. -/
theorem tStepNumber_rt (t' : Track) (n c d s : Option String) (ls : List Link)
    (nm : Option ℤ) (ty : Option String) (rest : List (String × GVal))
    (hrest : dLookup rest "number" = none) :
    tStepNumber (optE "name" (encS n) ++ optE "cmt" (encS c) ++ optE "desc" (encS d) ++
      optE "src" (encS s) ++ linksE ls ++ optE "number" (encI nm) ++
      optE "type" (encS ty) ++ rest) t' = .ok { t' with number := nm.or t'.number } := by
  have hl := lookup7_number n c d s ls nm ty rest hrest
  simp only [List.append_assoc] at hl
  cases nm <;> simp [tStepNumber, hl, asInt, Option.or]

/-- The `type` block of the track property section. -/
theorem tStepType_rt (t' : Track) (n c d s : Option String) (ls : List Link)
    (nm : Option ℤ) (ty : Option String) (rest : List (String × GVal))
    (hrest : dLookup rest "type" = none) :
    tStepType (optE "name" (encS n) ++ optE "cmt" (encS c) ++ optE "desc" (encS d) ++
      optE "src" (encS s) ++ linksE ls ++ optE "number" (encI nm) ++
      optE "type" (encS ty) ++ rest) t' = .ok { t' with type := ty.or t'.type } := by
  have hl := lookup7_type n c d s ls nm ty rest hrest
  simp only [List.append_assoc] at hl
  cases ty <;> simp [tStepType, hl, asStr, Option.or]

/-- The whole track property section over the characterized properties. -/
theorem track_parseProps_rt (t0 : Track) (n c d s : Option String) (ls : List Link)
    (nm : Option ℤ) (ty : Option String) (rest : List (String × GVal))
    (h1 : dLookup rest "name" = none) (h2 : dLookup rest "cmt" = none)
    (h3 : dLookup rest "desc" = none) (h4 : dLookup rest "src" = none)
    (h5 : dLookup rest "links" = none) (h6 : dLookup rest "number" = none)
    (h7 : dLookup rest "type" = none) :
    Track.parseProps (optE "name" (encS n) ++ optE "cmt" (encS c) ++ optE "desc" (encS d) ++
      optE "src" (encS s) ++ linksE ls ++ optE "number" (encI nm) ++
      optE "type" (encS ty) ++ rest) t0
      = .ok { t0 with
                name := n.or t0.name, cmt := c.or t0.cmt, desc := d.or t0.desc,
                src := s.or t0.src, links := t0.links ++ ls, number := nm.or t0.number,
                type := ty.or t0.type } := by
  rw [Track.parseProps, tStepName_rt _ _ _ _ _ _ _ _ _ h1, okBind,
    tStepCmt_rt _ _ _ _ _ _ _ _ _ h2, okBind, tStepDesc_rt _ _ _ _ _ _ _ _ _ h3, okBind,
    tStepSrc_rt _ _ _ _ _ _ _ _ _ h4, okBind, tStepLinks_rt _ _ _ _ _ _ _ _ _ h5, okBind,
    tStepNumber_rt _ _ _ _ _ _ _ _ _ h6, okBind, tStepType_rt _ _ _ _ _ _ _ _ _ h7]

/-- A segment's coordinate array zipped against its own per-point
property maps rebuilds the segment. -/
theorem parseSegWithProps_rt (ts : TrackSegment)
    (ht : ∀ p ∈ ts.trkpts, p.time = none) :
    parseSegWithProps (GVal.list (ts.trkpts.map fun p => GVal.list p.geojson_coordinates),
      GVal.list (ts.trkpts.map fun p => GVal.obj p.geojson_properties)) = .ok ts := by
  simp only [parseSegWithProps]
  rw [show (ts.trkpts.map fun p => GVal.list p.geojson_coordinates).zip
        (ts.trkpts.map fun p => GVal.obj p.geojson_properties)
      = ts.trkpts.map fun p =>
          (GVal.list p.geojson_coordinates, GVal.obj p.geojson_properties) from
    List.zip_map' _ _ _]
  rw [mapM_ok _ (forall2_map_self _ _ _ fun p hp => point_core_rt p (ht p hp)), okBind]

/-- A segment whose points are all property-free rebuilds from its
coordinate array alone. -/
theorem parseSegCoords_rt (ts : TrackSegment)
    (hall : ∀ p ∈ ts.trkpts, p.geojson_properties = []) :
    parseSegCoords (.list (ts.trkpts.map fun p => GVal.list p.geojson_coordinates))
      = .ok ts := by
  simp only [parseSegCoords]
  rw [mapM_ok _ (forall2_map_self _ _ _ fun p hp => parseCoordEntry_rt p (hall p hp)),
    okBind]

/-- The track side of the amended round trip: the feature shape of a
track with at least one point, no point timestamps and a non-empty
feature property map converts back to the original track. -/
theorem track_roundtrip (t : Track) (hpts : t.allPoints ≠ [])
    (ht : ∀ ts ∈ t.trksegs, ∀ p ∈ ts.trkpts, p.time = none)
    (hne : (optE "name" (encS t.name) ++ optE "cmt" (encS t.cmt) ++
        optE "desc" (encS t.desc) ++ optE "src" (encS t.src) ++ linksE t.links ++
        optE "number" (encI t.number) ++ optE "type" (encS t.type)) ≠ []
      ∨ (t.trksegs.map fun ts => ts.trkpts.map fun p => p.geojson_properties).any
          (fun scp => scp.any fun cp => !cp.isEmpty) = true) :
    t.to_geojson .feature >>= Track.from_geojson = .ok t := by
  obtain ⟨bb, hbb⟩ : ∃ bb, t.geojson_bounds = .ok bb := by
    rw [Track.geojson_bounds]
    cases hl : t.allPoints with
    | nil => exact absurd hl hpts
    | cons p ptsrest => exact bounds_ok_cons p ptsrest
  simp only [Track.to_geojson, hbb, okBind, filter7_eq]
  by_cases hflag :
      (t.trksegs.map fun ts => ts.trkpts.map fun p => p.geojson_properties).any
        (fun scp => scp.any fun cp => !cp.isEmpty) = true
  · rw [if_pos hflag]
    have hpe : ((optE "name" (encS t.name) ++ optE "cmt" (encS t.cmt) ++
        optE "desc" (encS t.desc) ++ optE "src" (encS t.src) ++ linksE t.links ++
        optE "number" (encI t.number) ++ optE "type" (encS t.type)) ++
        [("coordinatesProperties",
          GVal.list ((t.trksegs.map fun ts => ts.trkpts.map fun p =>
            p.geojson_properties).map fun scp =>
              GVal.list (scp.map fun cp => GVal.obj cp)))]).isEmpty = false := by
      simp [List.isEmpty_eq_false]
    rw [hpe]
    simp only [Bool.false_eq_true, if_false, List.cons_append, List.nil_append, okBind]
    simp only [Track.from_geojson, dIndex, dLookup, String.reduceEq, reduceIte, okBind]
    rw [lookup7_cp]
    simp only [dLookup, String.reduceEq, reduceIte, okBind, List.map_map,
      Function.comp_def]
    rw [show (t.trksegs.map fun ts =>
          GVal.list (ts.trkpts.map fun p => GVal.list p.geojson_coordinates)).zip
          (t.trksegs.map fun ts =>
            GVal.list (ts.trkpts.map fun p => GVal.obj p.geojson_properties))
        = t.trksegs.map fun ts =>
            (GVal.list (ts.trkpts.map fun p => GVal.list p.geojson_coordinates),
             GVal.list (ts.trkpts.map fun p => GVal.obj p.geojson_properties)) from
      List.zip_map' _ _ _]
    rw [mapM_ok _ (forall2_map_self _ _ _ fun ts hts =>
      parseSegWithProps_rt ts (ht ts hts)), okBind]
    rw [track_parseProps_rt _ t.name t.cmt t.desc t.src t.links t.number t.type
      [("coordinatesProperties",
        GVal.list (t.trksegs.map fun ts =>
          GVal.list (ts.trkpts.map fun p => GVal.obj p.geojson_properties)))]
      (by simp [dLookup]) (by simp [dLookup]) (by simp [dLookup]) (by simp [dLookup])
      (by simp [dLookup]) (by simp [dLookup]) (by simp [dLookup])]
    simp [Option.or_none, Track.empty]
  · rw [if_neg hflag]
    have hchain := hne.resolve_right hflag
    have hpe : (optE "name" (encS t.name) ++ optE "cmt" (encS t.cmt) ++
        optE "desc" (encS t.desc) ++ optE "src" (encS t.src) ++ linksE t.links ++
        optE "number" (encI t.number) ++ optE "type" (encS t.type)).isEmpty = false :=
      List.isEmpty_eq_false.mpr hchain
    rw [hpe]
    simp only [Bool.false_eq_true, if_false, List.cons_append, List.nil_append, okBind]
    have hall : ∀ ts ∈ t.trksegs, ∀ p ∈ ts.trkpts, p.geojson_properties = [] := by
      intro ts hts p hp
      by_contra hne2
      exact hflag (List.any_eq_true.mpr
        ⟨ts.trkpts.map fun p => p.geojson_properties, List.mem_map_of_mem _ hts,
          List.any_eq_true.mpr ⟨p.geojson_properties, List.mem_map_of_mem _ hp,
            by simpa [List.isEmpty_eq_false] using hne2⟩⟩)
    simp only [Track.from_geojson, dIndex, dLookup, String.reduceEq, reduceIte, okBind]
    rw [show (optE "name" (encS t.name) ++ optE "cmt" (encS t.cmt) ++
        optE "desc" (encS t.desc) ++ optE "src" (encS t.src) ++ linksE t.links ++
        optE "number" (encI t.number) ++ optE "type" (encS t.type))
      = (optE "name" (encS t.name) ++ optE "cmt" (encS t.cmt) ++
        optE "desc" (encS t.desc) ++ optE "src" (encS t.src) ++ linksE t.links ++
        optE "number" (encI t.number) ++ optE "type" (encS t.type)) ++ [] from
      (List.append_nil _).symm]
    rw [lookup7_cp]
    simp only [dLookup, okBind]
    rw [mapM_ok _ (forall2_map_self _ _ _ fun ts hts =>
      parseSegCoords_rt ts (hall ts hts)), okBind]
    rw [track_parseProps_rt _ t.name t.cmt t.desc t.src t.links t.number t.type []
      rfl rfl rfl rfl rfl rfl rfl]
    simp [Option.or_none, Track.empty]

/-! ## C1: the feature-shape round trip -/

/-- C1 counterexample: a waypoint with no optional fields does not round
trip — its feature shape carries `properties: None`, on which the reverse
conversion's property parsing raises an attribute error instead of
returning the waypoint. -/
theorem C1_counterexample_empty_properties :
    Waypoint.from_geojson (wpBare.to_geojson .feature) = .error .attributeError
    ∧ Waypoint.from_geojson (wpBare.to_geojson .feature) ≠ .ok wpBare := by
  constructor
  · rfl
  · decide

/-- C1 (amended): the feature-shape round trip `fromInterchange ∘
toInterchange = id` holds for a Waypoint/Route/Track under the conditions
the reverse conversion needs: no constituent point carries a timestamp
(a stored raw timestamp makes the reverse parse raise), the feature's
property map is non-empty (an empty one is emitted as `None` or omitted,
on which the reverse conversion raises), and a Route/Track has at least
one point (the forward conversion's bbox requires one). -/
theorem C1_roundtrip_feature :
    (∀ w : Waypoint, w.time = none → w.geojson_properties ≠ [] →
      Waypoint.from_geojson (w.to_geojson .feature) = .ok w)
    ∧ (∀ r : Route, r.rtepts ≠ [] → (∀ p ∈ r.rtepts, p.time = none) →
        ((optE "name" (encS r.name) ++ optE "cmt" (encS r.cmt) ++
          optE "desc" (encS r.desc) ++ optE "src" (encS r.src) ++ linksE r.links ++
          optE "number" (encI r.number) ++ optE "type" (encS r.type)) ≠ []
          ∨ (r.rtepts.map fun p => p.geojson_properties).any
              (fun cp => !cp.isEmpty) = true) →
        r.to_geojson .feature >>= Route.from_geojson = .ok r)
    ∧ (∀ t : Track, t.allPoints ≠ [] →
        (∀ ts ∈ t.trksegs, ∀ p ∈ ts.trkpts, p.time = none) →
        ((optE "name" (encS t.name) ++ optE "cmt" (encS t.cmt) ++
          optE "desc" (encS t.desc) ++ optE "src" (encS t.src) ++ linksE t.links ++
          optE "number" (encI t.number) ++ optE "type" (encS t.type)) ≠ []
          ∨ (t.trksegs.map fun ts => ts.trkpts.map fun p => p.geojson_properties).any
              (fun scp => scp.any fun cp => !cp.isEmpty) = true) →
        t.to_geojson .feature >>= Track.from_geojson = .ok t) :=
  ⟨wpt_roundtrip, route_roundtrip, track_roundtrip⟩



/-- C1 witness: the amended round trip instantiated at a full-featured
waypoint, a route and a track. -/
theorem C1_witness :
    (wpFull.time = none ∧ wpFull.geojson_properties ≠ []
      ∧ Waypoint.from_geojson (wpFull.to_geojson .feature) = .ok wpFull)
    ∧ (rteW.rtepts ≠ [] ∧ (∀ p ∈ rteW.rtepts, p.time = none)
      ∧ ((optE "name" (encS rteW.name) ++ optE "cmt" (encS rteW.cmt) ++
          optE "desc" (encS rteW.desc) ++ optE "src" (encS rteW.src) ++ linksE rteW.links ++
          optE "number" (encI rteW.number) ++ optE "type" (encS rteW.type)) ≠ []
          ∨ (rteW.rtepts.map fun p => p.geojson_properties).any
              (fun cp => !cp.isEmpty) = true)
      ∧ rteW.to_geojson .feature >>= Route.from_geojson = .ok rteW)
    ∧ (trkW.allPoints ≠ [] ∧ (∀ ts ∈ trkW.trksegs, ∀ p ∈ ts.trkpts, p.time = none)
      ∧ ((optE "name" (encS trkW.name) ++ optE "cmt" (encS trkW.cmt) ++
          optE "desc" (encS trkW.desc) ++ optE "src" (encS trkW.src) ++ linksE trkW.links ++
          optE "number" (encI trkW.number) ++ optE "type" (encS trkW.type)) ≠ []
          ∨ (trkW.trksegs.map fun ts => ts.trkpts.map fun p => p.geojson_properties).any
              (fun scp => scp.any fun cp => !cp.isEmpty) = true)
      ∧ trkW.to_geojson .feature >>= Track.from_geojson = .ok trkW) :=
  ⟨⟨rfl, List.isEmpty_eq_false.mp (by decide),
      C1_roundtrip_feature.1 wpFull rfl (List.isEmpty_eq_false.mp (by decide))⟩,
    ⟨by decide, by decide, Or.inr (by decide),
      C1_roundtrip_feature.2.1 rteW (by decide) (by decide) (Or.inr (by decide))⟩,
    ⟨by decide, by decide, Or.inl (List.isEmpty_eq_false.mp (by decide)),
      C1_roundtrip_feature.2.2 trkW (by decide) (by decide)
        (Or.inl (List.isEmpty_eq_false.mp (by decide)))⟩⟩

end GpxV
